import Mathlib

/-!
Shallow embedding of the segmentation model zoo in `model.py` (DSB2018).

The development has two layers:

* a *shape* layer: every layer of the network is modelled as a partial
  function on tensor shapes `(batch, channels, height, width)`, returning
  `none` exactly when the underlying tensor library would raise a runtime
  error (channel mismatch at a convolution or concatenation, spatial size
  too small for a convolution kernel or a 2x2 max-pooling);

* a *value* layer: tensors are functions from indices to real numbers and
  every layer is given its standard real-valued semantics (evaluation-mode
  forward pass: dropout is the identity and batch normalization uses the
  stored per-channel statistics).

The model factory `build_model` and the parameter-counting utility
`count_parameters` are embedded directly.
-/

/-- Shape of a 4-dimensional tensor: batch, channels, height, width. -/
structure TShape where
  n : ℕ
  c : ℕ
  h : ℕ
  w : ℕ
deriving DecidableEq, Repr

/-- Monadic bind on `Option`, written as a plain function so that each
layer of a forward pass is one application.  `obind o f` is `f a` when
`o = some a` and `none` otherwise. -/
def obind {A B : Type} (x : Option A) (f : A → Option B) : Option B :=
  match x with
  | none => none
  | some a => f a


/-- Shape semantics of `nn.Conv2d(inCh, outCh, k, padding = pad, dilation = dil)`
with stride 1: requires a positive kernel and dilation, matching input
channels, and a padded spatial extent at least as large as the effective
kernel `dil*(k-1)+1`; output spatial size is `h + 2*pad - dil*(k-1)`. -/
def conv2dShape (inCh outCh k pad dil : ℕ) (s : TShape) : Option TShape :=
  if 1 ≤ k ∧ 1 ≤ dil ∧ s.c = inCh ∧
      dil * (k - 1) + 1 ≤ s.h + 2 * pad ∧ dil * (k - 1) + 1 ≤ s.w + 2 * pad then
    some ⟨s.n, outCh, s.h + 2 * pad - dil * (k - 1), s.w + 2 * pad - dil * (k - 1)⟩
  else
    none

/-- Shape semantics of `nn.BatchNorm2d(ch)`: requires matching channels,
keeps the shape. -/
def batchNorm2dShape (ch : ℕ) (s : TShape) : Option TShape :=
  if s.c = ch then some s else none

/-- Shape semantics of `nn.MaxPool2d(kernel_size=2)` (stride 2): both spatial
sizes must be at least 2, output spatial sizes are halved (floor). -/
def maxPool2Shape (s : TShape) : Option TShape :=
  if 2 ≤ s.h ∧ 2 ≤ s.w then some ⟨s.n, s.c, s.h / 2, s.w / 2⟩ else none

/-- Shape semantics of `nn.ConvTranspose2d(inCh, outCh, k, stride=k)` with
kernel size equal to the stride (the only form used in `model.py`): output
spatial size is `k` times the input spatial size. -/
def convTranspose2Shape (inCh outCh k : ℕ) (s : TShape) : Option TShape :=
  if 1 ≤ k ∧ s.c = inCh ∧ 1 ≤ s.h ∧ 1 ≤ s.w then
    some ⟨s.n, outCh, k * s.h, k * s.w⟩
  else
    none

/-- Shape semantics of `torch.cat([a, b], 1)`: batch and spatial sizes must
agree, channel counts add. -/
def catShape (a b : TShape) : Option TShape :=
  if a.n = b.n ∧ a.h = b.h ∧ a.w = b.w then
    some ⟨a.n, a.c + b.c, a.h, a.w⟩
  else
    none

/-- Shape semantics of `DilatedConvBlock(in_size, out_size, kernel_size, ..., dilation)`:
conv (padding = dilation) -> activation -> batch norm -> dropout.  The
activation and the (possibly no-op) dropout preserve shapes. -/
def DilatedConvBlock.fshape (in_size out_size kernel_size dilation : ℕ)
    (s : TShape) : Option TShape :=
  obind (conv2dShape in_size out_size kernel_size dilation dilation s) fun x =>
  batchNorm2dShape out_size x

/-- Shape semantics of `ConvBlock(in_size, out_size, ..., dilation)`: two
dilated conv blocks then 2x max-pooling; returns (pooled, pre-pool). -/
def ConvBlock.fshape (in_size out_size dilation : ℕ) (s : TShape) :
    Option (TShape × TShape) :=
  obind (DilatedConvBlock.fshape in_size out_size 3 1 s) fun x =>
  obind (DilatedConvBlock.fshape out_size out_size 3 dilation x) fun x =>
  obind (maxPool2Shape x) fun p =>
  some (p, x)

/-- Shape semantics of `ConvUpBlock(in_size, out_size, ..., dilation)`:
transpose-conv upsampling (kernel 2, stride 2) from `in_size` to `out_size`,
concatenation with the bridge tensor, then two dilated conv blocks; note the
first block is `DilatedConvBlock(in_size, out_size)`, exactly as in the
source. -/
def ConvUpBlock.fshape (in_size out_size dilation : ℕ) (x bridge : TShape) :
    Option TShape :=
  obind (convTranspose2Shape in_size out_size 2 x) fun u =>
  obind (catShape u bridge) fun c =>
  obind (DilatedConvBlock.fshape in_size out_size 3 1 c) fun y =>
  DilatedConvBlock.fshape out_size out_size 3 dilation y

/-- Shape semantics of `UNet.forward`.  The bottom `ConvBlock` still computes
its max-pooling even though the pooled tensor is discarded, exactly as in
`_, x = self.cu(x)`. -/
def UNet.fshape (s : TShape) : Option (List TShape) :=
  obind (ConvBlock.fshape 3 16 1 s) fun xc1 =>
  obind (ConvBlock.fshape 16 32 1 xc1.1) fun xc2 =>
  obind (ConvBlock.fshape 32 64 1 xc2.1) fun xc3 =>
  obind (ConvBlock.fshape 64 128 1 xc3.1) fun xc4 =>
  obind (ConvBlock.fshape 128 256 1 xc4.1) fun xcu =>
  obind (obind (ConvUpBlock.fshape 256 128 1 xcu.2 xc4.2) fun x =>
         obind (ConvUpBlock.fshape 128 64 1 x xc3.2) fun x =>
         obind (ConvUpBlock.fshape 64 32 1 x xc2.2) fun x =>
         obind (ConvUpBlock.fshape 32 16 1 x xc1.2) fun x =>
         conv2dShape 16 1 1 0 1 x) fun x =>
  some [x]

/-- Shape semantics of `DUNet.forward`: dilated bottom tunnel (dilations
1, 2, 4, 8) instead of a fifth `ConvBlock`. -/
def DUNet.fshape (s : TShape) : Option (List TShape) :=
  obind (ConvBlock.fshape 3 16 2 s) fun xc1 =>
  obind (ConvBlock.fshape 16 32 2 xc1.1) fun xc2 =>
  obind (ConvBlock.fshape 32 64 2 xc2.1) fun xc3 =>
  obind (ConvBlock.fshape 64 128 2 xc3.1) fun xc4 =>
  obind (obind (DilatedConvBlock.fshape 128 256 3 1 xc4.1) fun x =>
         obind (DilatedConvBlock.fshape 256 256 3 2 x) fun x =>
         obind (DilatedConvBlock.fshape 256 256 3 4 x) fun x =>
         DilatedConvBlock.fshape 256 256 3 8 x) fun xb =>
  obind (obind (ConvUpBlock.fshape 256 128 1 xb xc4.2) fun x =>
         obind (ConvUpBlock.fshape 128 64 1 x xc3.2) fun x =>
         obind (ConvUpBlock.fshape 64 32 1 x xc2.2) fun x =>
         obind (ConvUpBlock.fshape 32 16 1 x xc1.2) fun x =>
         conv2dShape 16 1 1 0 1 x) fun x =>
  some [x]

/-- Shape semantics of `CAUNet.forward`: shared encoder, then a segmentation
branch and a contour branch, each four `ConvUpBlock`s and a 1x1 conv. -/
def CAUNet.fshape (s : TShape) : Option (List TShape) :=
  obind (ConvBlock.fshape 3 16 1 s) fun xc1 =>
  obind (ConvBlock.fshape 16 32 1 xc1.1) fun xc2 =>
  obind (ConvBlock.fshape 32 64 1 xc2.1) fun xc3 =>
  obind (ConvBlock.fshape 64 128 1 xc3.1) fun xc4 =>
  obind (ConvBlock.fshape 128 256 1 xc4.1) fun xcu =>
  obind (obind (ConvUpBlock.fshape 256 128 1 xcu.2 xc4.2) fun x =>
         obind (ConvUpBlock.fshape 128 64 1 x xc3.2) fun x =>
         obind (ConvUpBlock.fshape 64 32 1 x xc2.2) fun x =>
         obind (ConvUpBlock.fshape 32 16 1 x xc1.2) fun x =>
         conv2dShape 16 1 1 0 1 x) fun xs =>
  obind (obind (ConvUpBlock.fshape 256 128 1 xcu.2 xc4.2) fun x =>
         obind (ConvUpBlock.fshape 128 64 1 x xc3.2) fun x =>
         obind (ConvUpBlock.fshape 64 32 1 x xc2.2) fun x =>
         obind (ConvUpBlock.fshape 32 16 1 x xc1.2) fun x =>
         conv2dShape 16 1 1 0 1 x) fun xc =>
  some [xs, xc]

/-- Shape semantics of `CADUNet.forward`: dilated encoder and bottom tunnel,
then segmentation and contour branches. -/
def CADUNet.fshape (s : TShape) : Option (List TShape) :=
  obind (ConvBlock.fshape 3 16 2 s) fun xc1 =>
  obind (ConvBlock.fshape 16 32 2 xc1.1) fun xc2 =>
  obind (ConvBlock.fshape 32 64 2 xc2.1) fun xc3 =>
  obind (ConvBlock.fshape 64 128 2 xc3.1) fun xc4 =>
  obind (obind (DilatedConvBlock.fshape 128 256 3 1 xc4.1) fun x =>
         obind (DilatedConvBlock.fshape 256 256 3 2 x) fun x =>
         obind (DilatedConvBlock.fshape 256 256 3 4 x) fun x =>
         DilatedConvBlock.fshape 256 256 3 8 x) fun xb =>
  obind (obind (ConvUpBlock.fshape 256 128 1 xb xc4.2) fun x =>
         obind (ConvUpBlock.fshape 128 64 1 x xc3.2) fun x =>
         obind (ConvUpBlock.fshape 64 32 1 x xc2.2) fun x =>
         obind (ConvUpBlock.fshape 32 16 1 x xc1.2) fun x =>
         conv2dShape 16 1 1 0 1 x) fun xs =>
  obind (obind (ConvUpBlock.fshape 256 128 1 xb xc4.2) fun x =>
         obind (ConvUpBlock.fshape 128 64 1 x xc3.2) fun x =>
         obind (ConvUpBlock.fshape 64 32 1 x xc2.2) fun x =>
         obind (ConvUpBlock.fshape 32 16 1 x xc1.2) fun x =>
         conv2dShape 16 1 1 0 1 x) fun xc =>
  some [xs, xc]

/-- Shape semantics of `CAMUNet.forward`: shared encoder, then segmentation,
contour and marker branches. -/
def CAMUNet.fshape (s : TShape) : Option (List TShape) :=
  obind (ConvBlock.fshape 3 16 1 s) fun xc1 =>
  obind (ConvBlock.fshape 16 32 1 xc1.1) fun xc2 =>
  obind (ConvBlock.fshape 32 64 1 xc2.1) fun xc3 =>
  obind (ConvBlock.fshape 64 128 1 xc3.1) fun xc4 =>
  obind (ConvBlock.fshape 128 256 1 xc4.1) fun xcu =>
  obind (obind (ConvUpBlock.fshape 256 128 1 xcu.2 xc4.2) fun x =>
         obind (ConvUpBlock.fshape 128 64 1 x xc3.2) fun x =>
         obind (ConvUpBlock.fshape 64 32 1 x xc2.2) fun x =>
         obind (ConvUpBlock.fshape 32 16 1 x xc1.2) fun x =>
         conv2dShape 16 1 1 0 1 x) fun xs =>
  obind (obind (ConvUpBlock.fshape 256 128 1 xcu.2 xc4.2) fun x =>
         obind (ConvUpBlock.fshape 128 64 1 x xc3.2) fun x =>
         obind (ConvUpBlock.fshape 64 32 1 x xc2.2) fun x =>
         obind (ConvUpBlock.fshape 32 16 1 x xc1.2) fun x =>
         conv2dShape 16 1 1 0 1 x) fun xc =>
  obind (obind (ConvUpBlock.fshape 256 128 1 xcu.2 xc4.2) fun x =>
         obind (ConvUpBlock.fshape 128 64 1 x xc3.2) fun x =>
         obind (ConvUpBlock.fshape 64 32 1 x xc2.2) fun x =>
         obind (ConvUpBlock.fshape 32 16 1 x xc1.2) fun x =>
         conv2dShape 16 1 1 0 1 x) fun xm =>
  some [xs, xc, xm]

/-- Shape semantics of `CAMDUNet.forward`: dilated encoder and bottom tunnel,
then segmentation, contour and marker branches. -/
def CAMDUNet.fshape (s : TShape) : Option (List TShape) :=
  obind (ConvBlock.fshape 3 16 2 s) fun xc1 =>
  obind (ConvBlock.fshape 16 32 2 xc1.1) fun xc2 =>
  obind (ConvBlock.fshape 32 64 2 xc2.1) fun xc3 =>
  obind (ConvBlock.fshape 64 128 2 xc3.1) fun xc4 =>
  obind (obind (DilatedConvBlock.fshape 128 256 3 1 xc4.1) fun x =>
         obind (DilatedConvBlock.fshape 256 256 3 2 x) fun x =>
         obind (DilatedConvBlock.fshape 256 256 3 4 x) fun x =>
         DilatedConvBlock.fshape 256 256 3 8 x) fun xb =>
  obind (obind (ConvUpBlock.fshape 256 128 1 xb xc4.2) fun x =>
         obind (ConvUpBlock.fshape 128 64 1 x xc3.2) fun x =>
         obind (ConvUpBlock.fshape 64 32 1 x xc2.2) fun x =>
         obind (ConvUpBlock.fshape 32 16 1 x xc1.2) fun x =>
         conv2dShape 16 1 1 0 1 x) fun xs =>
  obind (obind (ConvUpBlock.fshape 256 128 1 xb xc4.2) fun x =>
         obind (ConvUpBlock.fshape 128 64 1 x xc3.2) fun x =>
         obind (ConvUpBlock.fshape 64 32 1 x xc2.2) fun x =>
         obind (ConvUpBlock.fshape 32 16 1 x xc1.2) fun x =>
         conv2dShape 16 1 1 0 1 x) fun xc =>
  obind (obind (ConvUpBlock.fshape 256 128 1 xb xc4.2) fun x =>
         obind (ConvUpBlock.fshape 128 64 1 x xc3.2) fun x =>
         obind (ConvUpBlock.fshape 64 32 1 x xc2.2) fun x =>
         obind (ConvUpBlock.fshape 32 16 1 x xc1.2) fun x =>
         conv2dShape 16 1 1 0 1 x) fun xm =>
  some [xs, xc, xm]

/-- Shape semantics of `dcanConv(in_ch, out_ch)`: 3x3 conv (padding 1),
activation, batch norm, dropout. -/
def dcanConv.fshape (in_ch out_ch : ℕ) (s : TShape) : Option TShape :=
  obind (conv2dShape in_ch out_ch 3 1 1 s) fun x =>
  batchNorm2dShape out_ch x

/-- Shape semantics of `dcanDeConv(in_ch, out_ch, upscale_factor)`:
transpose-conv with kernel size and stride equal to the upscale factor,
then a `dcanConv`. -/
def dcanDeConv.fshape (in_ch out_ch upscale_factor : ℕ) (s : TShape) :
    Option TShape :=
  obind (convTranspose2Shape in_ch out_ch upscale_factor s) fun x =>
  dcanConv.fshape out_ch out_ch x

/-- Shape semantics of an elementwise tensor sum: shapes must agree. -/
def addShape (a b : TShape) : Option TShape :=
  if a = b then some a else none

/-- Shape semantics of `DCAN.forward` for `DCAN(n_channels, n_classes)`:
six conv stages with max-pooling in between (as in the source each stage
applies `maxpool` inside its own line, e.g. `c2 = conv2(maxpool(c1))`),
three pairs of deconvolution heads upsampling by 8, 16 and 32, sums and
sigmoids. -/
def DCAN.fshape (n_channels n_classes : ℕ) (s : TShape) :
    Option (List TShape) :=
  obind (dcanConv.fshape n_channels 64 s) fun c1 =>
  obind (obind (maxPool2Shape c1) fun p => dcanConv.fshape 64 128 p) fun c2 =>
  obind (obind (maxPool2Shape c2) fun p => dcanConv.fshape 128 256 p) fun c3 =>
  obind (obind (maxPool2Shape c3) fun p => dcanConv.fshape 256 512 p) fun c4 =>
  obind (dcanDeConv.fshape 512 n_classes 8 c4) fun u3s =>
  obind (dcanDeConv.fshape 512 n_classes 8 c4) fun u3c =>
  obind (obind (maxPool2Shape c4) fun p => dcanConv.fshape 512 512 p) fun c5 =>
  obind (dcanDeConv.fshape 512 n_classes 16 c5) fun u2s =>
  obind (dcanDeConv.fshape 512 n_classes 16 c5) fun u2c =>
  obind (obind (maxPool2Shape c5) fun p => dcanConv.fshape 512 1024 p) fun c6 =>
  obind (dcanDeConv.fshape 1024 n_classes 32 c6) fun u1s =>
  obind (dcanDeConv.fshape 1024 n_classes 32 c6) fun u1c =>
  obind (obind (addShape u1s u2s) fun t => addShape t u3s) fun outs =>
  obind (obind (addShape u1c u2c) fun t => addShape t u3c) fun outc =>
  some [outs, outc]

/-- Shape semantics of `F.pad(x2, (dX//2, int(dX/2), dY//2, int(dY/2)))` as
used in `DeConvBlk.forward`: `dX` is the height difference but is applied to
the width axis (the first pad pair applies to the last dimension), and
symmetrically for `dY`; a floor-division half plus a truncating-division
half add up to the full difference.  Negative padding crops; the result must
stay nonnegative. -/
def padShape (dX dY : ℤ) (s : TShape) : Option TShape :=
  let newW : ℤ := (s.w : ℤ) + dX.fdiv 2 + dX.tdiv 2
  let newH : ℤ := (s.h : ℤ) + dY.fdiv 2 + dY.tdiv 2
  if 0 ≤ newH ∧ 0 ≤ newW then some ⟨s.n, s.c, newH.toNat, newW.toNat⟩ else none

/-- Shape semantics of `DeConvBlk(in_ch, out_ch).forward(x1, x2)`:
upscale `x1` from `in_ch` to `in_ch/2` channels, pad `x2` to match, then
concatenate followed by two 3x3 convolution stages producing `out_ch`. -/
def DeConvBlk.fshape (in_ch out_ch : ℕ) (x1 x2 : TShape) : Option TShape :=
  obind (convTranspose2Shape in_ch (in_ch / 2) 2 x1) fun u =>
  obind (padShape ((u.h : ℤ) - (x2.h : ℤ)) ((u.w : ℤ) - (x2.w : ℤ)) x2) fun x2p =>
  obind (catShape u x2p) fun c =>
  obind (conv2dShape (in_ch / 2 + out_ch) out_ch 3 1 1 c) fun y =>
  obind (batchNorm2dShape out_ch y) fun y =>
  obind (conv2dShape out_ch out_ch 3 1 1 y) fun y =>
  batchNorm2dShape out_ch y

/-- Shape semantics of one VGG16-BN encoder stage layer: 3x3 conv with
padding 1, batch norm, activation. -/
def vggStageShape (in_ch out_ch : ℕ) (s : TShape) : Option TShape :=
  obind (conv2dShape in_ch out_ch 3 1 1 s) fun x =>
  batchNorm2dShape out_ch x

/-- Shape semantics of `UNetVgg16.forward` for `UNetVgg16(n_channels,
n_classes, fixed_vgg)`.  The first pretrained convolution always takes 3
input channels (the `n_channels` constructor argument is never used by the
source).  Four max-poolings separate the five encoder stages; four
`DeConvBlk`s and a 1x1 conv follow.  The bind chain is grouped by encoder
stage (a pure reassociation: only the stage outputs `x1`-`x5` are referred
to later). -/
def UNetVgg16.fshape (n_classes : ℕ) (s : TShape) : Option (List TShape) :=
  obind (obind (vggStageShape 3 64 s) fun t =>
         vggStageShape 64 64 t) fun x1 =>
  obind (obind (maxPool2Shape x1) fun t =>
         obind (vggStageShape 64 128 t) fun t =>
         vggStageShape 128 128 t) fun x2 =>
  obind (obind (maxPool2Shape x2) fun t =>
         obind (vggStageShape 128 256 t) fun t =>
         obind (vggStageShape 256 256 t) fun t =>
         vggStageShape 256 256 t) fun x3 =>
  obind (obind (maxPool2Shape x3) fun t =>
         obind (vggStageShape 256 512 t) fun t =>
         obind (vggStageShape 512 512 t) fun t =>
         vggStageShape 512 512 t) fun x4 =>
  obind (obind (maxPool2Shape x4) fun t =>
         obind (vggStageShape 512 512 t) fun t =>
         obind (vggStageShape 512 512 t) fun t =>
         vggStageShape 512 512 t) fun x5 =>
  obind (DeConvBlk.fshape 512 512 x5 x4) fun t =>
  obind (DeConvBlk.fshape 512 256 t x3) fun t =>
  obind (DeConvBlk.fshape 256 128 t x2) fun t =>
  obind (DeConvBlk.fshape 128 64 t x1) fun t =>
  obind (conv2dShape 64 n_classes 1 0 1 t) fun t =>
  some [t]

/-- The architecture selected by the model factory: which class is
instantiated and with which constructor arguments. -/
inductive ModelSpec where
  | unet : ModelSpec
  | dunet : ModelSpec
  | caunet : ModelSpec
  | cadunet : ModelSpec
  | camunet : ModelSpec
  | camdunet : ModelSpec
  | unetVgg16 (n_channels n_classes : ℕ) (fixed_vgg : Bool) : ModelSpec
  | dcan (n_channels n_classes : ℕ) : ModelSpec
deriving DecidableEq, Repr

/-- Embedding of `build_model(model_name)`: the if/elif chain of the source,
in source order.  Note the `cadunet` branch constructs `CAMDUNet()`. -/
def build_model (model_name : String := "unet") : ModelSpec :=
  if model_name = "unet_vgg16" then ModelSpec.unetVgg16 3 1 true
  else if model_name = "dcan" then ModelSpec.dcan 3 1
  else if model_name = "caunet" then ModelSpec.caunet
  else if model_name = "camunet" then ModelSpec.camunet
  else if model_name = "dunet" then ModelSpec.dunet
  else if model_name = "cadunet" then ModelSpec.camdunet
  else if model_name = "camdunet" then ModelSpec.camdunet
  else ModelSpec.unet

/-- A learnable parameter tensor, abstracted to its element count and its
`requires_grad` flag. -/
structure ParamT where
  numel : ℕ
  requires_grad : Bool
deriving DecidableEq, Repr

/-- Embedding of `count_parameters(model)`:
`sum(p.numel() for p in model.parameters() if p.requires_grad)`. -/
def count_parameters : List ParamT → ℕ
  | [] => 0
  | p :: ps => (if p.requires_grad then p.numel else 0) + count_parameters ps

/-- Parameters of the pretrained VGG16-BN backbone: freshly loaded
pretrained parameters have `requires_grad = True`. -/
def vgg16_parameters (numels : List ℕ) : List ParamT :=
  numels.map fun m => ⟨m, true⟩

/-- Embedding of the freezing loop
`for param in self.vgg16.parameters(): param.requires_grad = False`. -/
def set_requires_grad_false (ps : List ParamT) : List ParamT :=
  ps.map fun p => ⟨p.numel, false⟩

/-- Parameter list of a constructed `UNetVgg16(n_channels, n_classes,
fixed_vgg)`: the backbone parameters (frozen when `fixed_vgg` is true)
followed by the decoder and output-head parameters, which are ordinary
trainable parameters. -/
def UNetVgg16.parameters (backbone decoder : List ℕ) (fixed_vgg : Bool) :
    List ParamT :=
  (if fixed_vgg then set_requires_grad_false (vgg16_parameters backbone)
   else vgg16_parameters backbone) ++ decoder.map fun m => ⟨m, true⟩

/-- Whether a factory result is a `UNetVgg16` whose backbone was left
unfrozen. -/
def ModelSpec.isUnfrozenVgg : ModelSpec → Bool
  | ModelSpec.unetVgg16 _ _ false => true
  | _ => false


/-! ### Value layer: evaluation-mode real-number semantics of every layer. -/

/-- A value-level tensor: a total assignment of a real number to every
(batch, channel, row, column) index.  Spatial indices are integers so that
zero padding at the borders can be expressed directly. -/
abbrev Tensor : Type := ℕ → ℕ → ℤ → ℤ → ℝ

noncomputable section

/-- The logistic sigmoid, the semantics of `F.sigmoid`. -/
def sigmoid (x : ℝ) : ℝ := 1 / (1 + Real.exp (-x))

/-- Elementwise sigmoid on a tensor. -/
def sigmoidT (t : Tensor) : Tensor := fun n c i j => sigmoid (t n c i j)

/-- Weights and bias of a convolution (or transpose convolution). -/
structure ConvP where
  weight : ℕ → ℕ → ℕ → ℕ → ℝ
  bias : ℕ → ℝ

/-- Value semantics of `nn.Conv2d` with square kernel `k`, stride 1,
`padding = pad` and `dilation = dil` on an input with `inCh` channels and
spatial extent `H x W` (reads outside the extent are the zero padding). -/
def conv2d (p : ConvP) (inCh k pad dil H W : ℕ) (x : Tensor) : Tensor :=
  fun n c i j =>
    p.bias c + ∑ ci ∈ Finset.range inCh, ∑ ki ∈ Finset.range k, ∑ kj ∈ Finset.range k,
      p.weight c ci ki kj *
        (if 0 ≤ i - (pad : ℤ) + ((dil * ki : ℕ) : ℤ) ∧
              i - (pad : ℤ) + ((dil * ki : ℕ) : ℤ) < (H : ℤ) ∧
              0 ≤ j - (pad : ℤ) + ((dil * kj : ℕ) : ℤ) ∧
              j - (pad : ℤ) + ((dil * kj : ℕ) : ℤ) < (W : ℤ) then
           x n ci (i - (pad : ℤ) + ((dil * ki : ℕ) : ℤ)) (j - (pad : ℤ) + ((dil * kj : ℕ) : ℤ))
         else 0)

/-- Value semantics of the rectified-linear activation `F.relu`. -/
def reluT (x : Tensor) : Tensor := fun n c i j => max (x n c i j) 0

/-- Per-channel affine statistics of a `nn.BatchNorm2d` layer. -/
structure BNP where
  gamma : ℕ → ℝ
  beta : ℕ → ℝ
  running_mean : ℕ → ℝ
  running_var : ℕ → ℝ

/-- Value semantics of `nn.BatchNorm2d` in evaluation mode: per-channel
normalization by the stored statistics followed by the learned affine map
(`eps = 1e-5`, the layer default). -/
def batchNorm2d (p : BNP) (x : Tensor) : Tensor :=
  fun n c i j =>
    (x n c i j - p.running_mean c) / Real.sqrt (p.running_var c + 1e-5) * p.gamma c
      + p.beta c

/-- Value semantics of `nn.Dropout2d` in evaluation mode: the identity. -/
def dropout2d (x : Tensor) : Tensor := x

/-- Value semantics of `nn.MaxPool2d(kernel_size=2)` (stride 2). -/
def maxPool2d (x : Tensor) : Tensor :=
  fun n c i j =>
    max (max (x n c (2 * i) (2 * j)) (x n c (2 * i) (2 * j + 1)))
        (max (x n c (2 * i + 1) (2 * j)) (x n c (2 * i + 1) (2 * j + 1)))

/-- Value semantics of `nn.ConvTranspose2d(inCh, outCh, k, stride=k)` with
kernel size equal to the stride, the only form appearing in `model.py`:
output position `(i, j)` receives exactly one kernel tap from input position
`(i / k, j / k)`. -/
def convTranspose2d (p : ConvP) (inCh k : ℕ) (x : Tensor) : Tensor :=
  fun n c i j =>
    p.bias c + ∑ ci ∈ Finset.range inCh,
      p.weight ci c (i % (k : ℤ)).toNat (j % (k : ℤ)).toNat * x n ci (i / (k : ℤ)) (j / (k : ℤ))

/-- Value semantics of `torch.cat([x, y], 1)` where `x` has `c1` channels. -/
def catChannels (c1 : ℕ) (x y : Tensor) : Tensor :=
  fun n c i j => if c < c1 then x n c i j else y n (c - c1) i j

/-- Elementwise tensor sum, the semantics of `+` on tensors. -/
def addT (x y : Tensor) : Tensor := fun n c i j => x n c i j + y n c i j

/-- Value semantics of `F.pad` with zero padding: `left` and `top` shift the
content, reads outside the original `H x W` extent give zero (negative
values crop). -/
def padT (left top : ℤ) (H W : ℕ) (x : Tensor) : Tensor :=
  fun n c i j =>
    if 0 ≤ i - top ∧ i - top < (H : ℤ) ∧ 0 ≤ j - left ∧ j - left < (W : ℤ) then
      x n c (i - top) (j - left)
    else 0

/-- Parameters of a `DilatedConvBlock`. -/
structure DCBP where
  conv : ConvP
  norm : BNP

/-- Value semantics of `DilatedConvBlock.forward`:
conv -> activation -> batch norm -> dropout (`padding = dilation`). -/
def DilatedConvBlock.fval (p : DCBP) (in_size kernel_size dilation H W : ℕ)
    (x : Tensor) : Tensor :=
  dropout2d (batchNorm2d p.norm
    (reluT (conv2d p.conv in_size kernel_size dilation dilation H W x)))

/-- Parameters of a `ConvBlock`. -/
structure CBP where
  block1 : DCBP
  block2 : DCBP

/-- Value semantics of `ConvBlock.forward`: both dilated conv blocks, then
the pair (pooled, pre-pool). -/
def ConvBlock.fval (p : CBP) (in_size out_size dilation H W : ℕ) (x : Tensor) :
    Tensor × Tensor :=
  let y := DilatedConvBlock.fval p.block1 in_size 3 1 H W x
  let y2 := DilatedConvBlock.fval p.block2 out_size 3 dilation H W y
  (maxPool2d y2, y2)

/-- Parameters of a `ConvUpBlock`. -/
structure CUBP where
  up : ConvP
  block1 : DCBP
  block2 : DCBP

/-- Value semantics of `ConvUpBlock.forward` on an input of spatial extent
`H x W`: upsample, concatenate with the bridge, two dilated conv blocks. -/
def ConvUpBlock.fval (p : CUBP) (in_size out_size dilation H W : ℕ)
    (x bridge : Tensor) : Tensor :=
  let u := convTranspose2d p.up in_size 2 x
  let c := catChannels out_size u bridge
  let y := DilatedConvBlock.fval p.block1 in_size 3 1 (2 * H) (2 * W) c
  DilatedConvBlock.fval p.block2 out_size 3 dilation (2 * H) (2 * W) y

/-- Parameters of `UNet`. -/
structure UNetP where
  c1 : CBP
  c2 : CBP
  c3 : CBP
  c4 : CBP
  cu : CBP
  u5 : CUBP
  u6 : CUBP
  u7 : CUBP
  u8 : CUBP
  ce : ConvP

/-- The pre-sigmoid output of `UNet.forward` on an input of spatial extent
`H x W`. -/
def UNet.pre (p : UNetP) (H W : ℕ) (x : Tensor) : Tensor :=
  let s1 := ConvBlock.fval p.c1 3 16 1 H W x
  let s2 := ConvBlock.fval p.c2 16 32 1 (H / 2) (W / 2) s1.1
  let s3 := ConvBlock.fval p.c3 32 64 1 (H / 4) (W / 4) s2.1
  let s4 := ConvBlock.fval p.c4 64 128 1 (H / 8) (W / 8) s3.1
  let su := ConvBlock.fval p.cu 128 256 1 (H / 16) (W / 16) s4.1
  let x5 := ConvUpBlock.fval p.u5 256 128 1 (H / 16) (W / 16) su.2 s4.2
  let x6 := ConvUpBlock.fval p.u6 128 64 1 (H / 8) (W / 8) x5 s3.2
  let x7 := ConvUpBlock.fval p.u7 64 32 1 (H / 4) (W / 4) x6 s2.2
  let x8 := ConvUpBlock.fval p.u8 32 16 1 (H / 2) (W / 2) x7 s1.2
  conv2d p.ce 16 1 0 1 H W x8

/-- Value semantics of `UNet.forward`: sigmoid of the pre-activation. -/
def UNet.fval (p : UNetP) (H W : ℕ) (x : Tensor) : List Tensor :=
  [sigmoidT (UNet.pre p H W x)]

/-- Parameters of `DUNet`. -/
structure DUNetP where
  c1 : CBP
  c2 : CBP
  c3 : CBP
  c4 : CBP
  d1 : DCBP
  d2 : DCBP
  d3 : DCBP
  d4 : DCBP
  u5 : CUBP
  u6 : CUBP
  u7 : CUBP
  u8 : CUBP
  ce : ConvP

/-- The pre-sigmoid output of `DUNet.forward`. -/
def DUNet.pre (p : DUNetP) (H W : ℕ) (x : Tensor) : Tensor :=
  let s1 := ConvBlock.fval p.c1 3 16 2 H W x
  let s2 := ConvBlock.fval p.c2 16 32 2 (H / 2) (W / 2) s1.1
  let s3 := ConvBlock.fval p.c3 32 64 2 (H / 4) (W / 4) s2.1
  let s4 := ConvBlock.fval p.c4 64 128 2 (H / 8) (W / 8) s3.1
  let t1 := DilatedConvBlock.fval p.d1 128 3 1 (H / 16) (W / 16) s4.1
  let t2 := DilatedConvBlock.fval p.d2 256 3 2 (H / 16) (W / 16) t1
  let t3 := DilatedConvBlock.fval p.d3 256 3 4 (H / 16) (W / 16) t2
  let t4 := DilatedConvBlock.fval p.d4 256 3 8 (H / 16) (W / 16) t3
  let x5 := ConvUpBlock.fval p.u5 256 128 1 (H / 16) (W / 16) t4 s4.2
  let x6 := ConvUpBlock.fval p.u6 128 64 1 (H / 8) (W / 8) x5 s3.2
  let x7 := ConvUpBlock.fval p.u7 64 32 1 (H / 4) (W / 4) x6 s2.2
  let x8 := ConvUpBlock.fval p.u8 32 16 1 (H / 2) (W / 2) x7 s1.2
  conv2d p.ce 16 1 0 1 H W x8

/-- Value semantics of `DUNet.forward`. -/
def DUNet.fval (p : DUNetP) (H W : ℕ) (x : Tensor) : List Tensor :=
  [sigmoidT (DUNet.pre p H W x)]

/-- Parameters of `CAUNet`. -/
structure CAUNetP where
  c1 : CBP
  c2 : CBP
  c3 : CBP
  c4 : CBP
  cu : CBP
  u5s : CUBP
  u6s : CUBP
  u7s : CUBP
  u8s : CUBP
  ces : ConvP
  u5c : CUBP
  u6c : CUBP
  u7c : CUBP
  u8c : CUBP
  cec : ConvP

/-- The pre-sigmoid outputs (segmentation, contour) of `CAUNet.forward`. -/
def CAUNet.pres (p : CAUNetP) (H W : ℕ) (x : Tensor) : Tensor × Tensor :=
  let s1 := ConvBlock.fval p.c1 3 16 1 H W x
  let s2 := ConvBlock.fval p.c2 16 32 1 (H / 2) (W / 2) s1.1
  let s3 := ConvBlock.fval p.c3 32 64 1 (H / 4) (W / 4) s2.1
  let s4 := ConvBlock.fval p.c4 64 128 1 (H / 8) (W / 8) s3.1
  let su := ConvBlock.fval p.cu 128 256 1 (H / 16) (W / 16) s4.1
  let xs5 := ConvUpBlock.fval p.u5s 256 128 1 (H / 16) (W / 16) su.2 s4.2
  let xs6 := ConvUpBlock.fval p.u6s 128 64 1 (H / 8) (W / 8) xs5 s3.2
  let xs7 := ConvUpBlock.fval p.u7s 64 32 1 (H / 4) (W / 4) xs6 s2.2
  let xs8 := ConvUpBlock.fval p.u8s 32 16 1 (H / 2) (W / 2) xs7 s1.2
  let xc5 := ConvUpBlock.fval p.u5c 256 128 1 (H / 16) (W / 16) su.2 s4.2
  let xc6 := ConvUpBlock.fval p.u6c 128 64 1 (H / 8) (W / 8) xc5 s3.2
  let xc7 := ConvUpBlock.fval p.u7c 64 32 1 (H / 4) (W / 4) xc6 s2.2
  let xc8 := ConvUpBlock.fval p.u8c 32 16 1 (H / 2) (W / 2) xc7 s1.2
  (conv2d p.ces 16 1 0 1 H W xs8, conv2d p.cec 16 1 0 1 H W xc8)

/-- Value semantics of `CAUNet.forward`: a sigmoid ends each branch. -/
def CAUNet.fval (p : CAUNetP) (H W : ℕ) (x : Tensor) : List Tensor :=
  [sigmoidT (CAUNet.pres p H W x).1, sigmoidT (CAUNet.pres p H W x).2]

/-- Parameters of `CADUNet`. -/
structure CADUNetP where
  c1 : CBP
  c2 : CBP
  c3 : CBP
  c4 : CBP
  d1 : DCBP
  d2 : DCBP
  d3 : DCBP
  d4 : DCBP
  u5s : CUBP
  u6s : CUBP
  u7s : CUBP
  u8s : CUBP
  ces : ConvP
  u5c : CUBP
  u6c : CUBP
  u7c : CUBP
  u8c : CUBP
  cec : ConvP

/-- The pre-sigmoid outputs (segmentation, contour) of `CADUNet.forward`. -/
def CADUNet.pres (p : CADUNetP) (H W : ℕ) (x : Tensor) : Tensor × Tensor :=
  let s1 := ConvBlock.fval p.c1 3 16 2 H W x
  let s2 := ConvBlock.fval p.c2 16 32 2 (H / 2) (W / 2) s1.1
  let s3 := ConvBlock.fval p.c3 32 64 2 (H / 4) (W / 4) s2.1
  let s4 := ConvBlock.fval p.c4 64 128 2 (H / 8) (W / 8) s3.1
  let t1 := DilatedConvBlock.fval p.d1 128 3 1 (H / 16) (W / 16) s4.1
  let t2 := DilatedConvBlock.fval p.d2 256 3 2 (H / 16) (W / 16) t1
  let t3 := DilatedConvBlock.fval p.d3 256 3 4 (H / 16) (W / 16) t2
  let t4 := DilatedConvBlock.fval p.d4 256 3 8 (H / 16) (W / 16) t3
  let xs5 := ConvUpBlock.fval p.u5s 256 128 1 (H / 16) (W / 16) t4 s4.2
  let xs6 := ConvUpBlock.fval p.u6s 128 64 1 (H / 8) (W / 8) xs5 s3.2
  let xs7 := ConvUpBlock.fval p.u7s 64 32 1 (H / 4) (W / 4) xs6 s2.2
  let xs8 := ConvUpBlock.fval p.u8s 32 16 1 (H / 2) (W / 2) xs7 s1.2
  let xc5 := ConvUpBlock.fval p.u5c 256 128 1 (H / 16) (W / 16) t4 s4.2
  let xc6 := ConvUpBlock.fval p.u6c 128 64 1 (H / 8) (W / 8) xc5 s3.2
  let xc7 := ConvUpBlock.fval p.u7c 64 32 1 (H / 4) (W / 4) xc6 s2.2
  let xc8 := ConvUpBlock.fval p.u8c 32 16 1 (H / 2) (W / 2) xc7 s1.2
  (conv2d p.ces 16 1 0 1 H W xs8, conv2d p.cec 16 1 0 1 H W xc8)

/-- Value semantics of `CADUNet.forward`. -/
def CADUNet.fval (p : CADUNetP) (H W : ℕ) (x : Tensor) : List Tensor :=
  [sigmoidT (CADUNet.pres p H W x).1, sigmoidT (CADUNet.pres p H W x).2]

/-- Parameters of `CAMUNet`. -/
structure CAMUNetP where
  c1 : CBP
  c2 : CBP
  c3 : CBP
  c4 : CBP
  cu : CBP
  u5s : CUBP
  u6s : CUBP
  u7s : CUBP
  u8s : CUBP
  ces : ConvP
  u5c : CUBP
  u6c : CUBP
  u7c : CUBP
  u8c : CUBP
  cec : ConvP
  u5m : CUBP
  u6m : CUBP
  u7m : CUBP
  u8m : CUBP
  cem : ConvP

/-- The pre-sigmoid outputs (segmentation, contour, marker) of
`CAMUNet.forward`. -/
def CAMUNet.pres (p : CAMUNetP) (H W : ℕ) (x : Tensor) :
    Tensor × Tensor × Tensor :=
  let s1 := ConvBlock.fval p.c1 3 16 1 H W x
  let s2 := ConvBlock.fval p.c2 16 32 1 (H / 2) (W / 2) s1.1
  let s3 := ConvBlock.fval p.c3 32 64 1 (H / 4) (W / 4) s2.1
  let s4 := ConvBlock.fval p.c4 64 128 1 (H / 8) (W / 8) s3.1
  let su := ConvBlock.fval p.cu 128 256 1 (H / 16) (W / 16) s4.1
  let xs5 := ConvUpBlock.fval p.u5s 256 128 1 (H / 16) (W / 16) su.2 s4.2
  let xs6 := ConvUpBlock.fval p.u6s 128 64 1 (H / 8) (W / 8) xs5 s3.2
  let xs7 := ConvUpBlock.fval p.u7s 64 32 1 (H / 4) (W / 4) xs6 s2.2
  let xs8 := ConvUpBlock.fval p.u8s 32 16 1 (H / 2) (W / 2) xs7 s1.2
  let xc5 := ConvUpBlock.fval p.u5c 256 128 1 (H / 16) (W / 16) su.2 s4.2
  let xc6 := ConvUpBlock.fval p.u6c 128 64 1 (H / 8) (W / 8) xc5 s3.2
  let xc7 := ConvUpBlock.fval p.u7c 64 32 1 (H / 4) (W / 4) xc6 s2.2
  let xc8 := ConvUpBlock.fval p.u8c 32 16 1 (H / 2) (W / 2) xc7 s1.2
  let xm5 := ConvUpBlock.fval p.u5m 256 128 1 (H / 16) (W / 16) su.2 s4.2
  let xm6 := ConvUpBlock.fval p.u6m 128 64 1 (H / 8) (W / 8) xm5 s3.2
  let xm7 := ConvUpBlock.fval p.u7m 64 32 1 (H / 4) (W / 4) xm6 s2.2
  let xm8 := ConvUpBlock.fval p.u8m 32 16 1 (H / 2) (W / 2) xm7 s1.2
  (conv2d p.ces 16 1 0 1 H W xs8,
   conv2d p.cec 16 1 0 1 H W xc8,
   conv2d p.cem 16 1 0 1 H W xm8)

/-- Value semantics of `CAMUNet.forward`. -/
def CAMUNet.fval (p : CAMUNetP) (H W : ℕ) (x : Tensor) : List Tensor :=
  [sigmoidT (CAMUNet.pres p H W x).1,
   sigmoidT (CAMUNet.pres p H W x).2.1,
   sigmoidT (CAMUNet.pres p H W x).2.2]

/-- Parameters of `CAMDUNet`. -/
structure CAMDUNetP where
  c1 : CBP
  c2 : CBP
  c3 : CBP
  c4 : CBP
  d1 : DCBP
  d2 : DCBP
  d3 : DCBP
  d4 : DCBP
  u5s : CUBP
  u6s : CUBP
  u7s : CUBP
  u8s : CUBP
  ces : ConvP
  u5c : CUBP
  u6c : CUBP
  u7c : CUBP
  u8c : CUBP
  cec : ConvP
  u5m : CUBP
  u6m : CUBP
  u7m : CUBP
  u8m : CUBP
  cem : ConvP

/-- The pre-sigmoid outputs (segmentation, contour, marker) of
`CAMDUNet.forward`. -/
def CAMDUNet.pres (p : CAMDUNetP) (H W : ℕ) (x : Tensor) :
    Tensor × Tensor × Tensor :=
  let s1 := ConvBlock.fval p.c1 3 16 2 H W x
  let s2 := ConvBlock.fval p.c2 16 32 2 (H / 2) (W / 2) s1.1
  let s3 := ConvBlock.fval p.c3 32 64 2 (H / 4) (W / 4) s2.1
  let s4 := ConvBlock.fval p.c4 64 128 2 (H / 8) (W / 8) s3.1
  let t1 := DilatedConvBlock.fval p.d1 128 3 1 (H / 16) (W / 16) s4.1
  let t2 := DilatedConvBlock.fval p.d2 256 3 2 (H / 16) (W / 16) t1
  let t3 := DilatedConvBlock.fval p.d3 256 3 4 (H / 16) (W / 16) t2
  let t4 := DilatedConvBlock.fval p.d4 256 3 8 (H / 16) (W / 16) t3
  let xs5 := ConvUpBlock.fval p.u5s 256 128 1 (H / 16) (W / 16) t4 s4.2
  let xs6 := ConvUpBlock.fval p.u6s 128 64 1 (H / 8) (W / 8) xs5 s3.2
  let xs7 := ConvUpBlock.fval p.u7s 64 32 1 (H / 4) (W / 4) xs6 s2.2
  let xs8 := ConvUpBlock.fval p.u8s 32 16 1 (H / 2) (W / 2) xs7 s1.2
  let xc5 := ConvUpBlock.fval p.u5c 256 128 1 (H / 16) (W / 16) t4 s4.2
  let xc6 := ConvUpBlock.fval p.u6c 128 64 1 (H / 8) (W / 8) xc5 s3.2
  let xc7 := ConvUpBlock.fval p.u7c 64 32 1 (H / 4) (W / 4) xc6 s2.2
  let xc8 := ConvUpBlock.fval p.u8c 32 16 1 (H / 2) (W / 2) xc7 s1.2
  let xm5 := ConvUpBlock.fval p.u5m 256 128 1 (H / 16) (W / 16) t4 s4.2
  let xm6 := ConvUpBlock.fval p.u6m 128 64 1 (H / 8) (W / 8) xm5 s3.2
  let xm7 := ConvUpBlock.fval p.u7m 64 32 1 (H / 4) (W / 4) xm6 s2.2
  let xm8 := ConvUpBlock.fval p.u8m 32 16 1 (H / 2) (W / 2) xm7 s1.2
  (conv2d p.ces 16 1 0 1 H W xs8,
   conv2d p.cec 16 1 0 1 H W xc8,
   conv2d p.cem 16 1 0 1 H W xm8)

/-- Value semantics of `CAMDUNet.forward`. -/
def CAMDUNet.fval (p : CAMDUNetP) (H W : ℕ) (x : Tensor) : List Tensor :=
  [sigmoidT (CAMDUNet.pres p H W x).1,
   sigmoidT (CAMDUNet.pres p H W x).2.1,
   sigmoidT (CAMDUNet.pres p H W x).2.2]

/-- Parameters of a `dcanConv`. -/
structure DcanConvP where
  conv : ConvP
  norm : BNP

/-- Value semantics of `dcanConv.forward`: conv -> relu -> batch norm ->
dropout. -/
def dcanConv.fval (p : DcanConvP) (in_ch H W : ℕ) (x : Tensor) : Tensor :=
  dropout2d (batchNorm2d p.norm (reluT (conv2d p.conv in_ch 3 1 1 H W x)))

/-- Parameters of a `dcanDeConv`. -/
structure DcanDeConvP where
  upscaling : ConvP
  conv : DcanConvP

/-- Value semantics of `dcanDeConv.forward` on an input of spatial extent
`H x W`. -/
def dcanDeConv.fval (p : DcanDeConvP) (in_ch out_ch upscale_factor H W : ℕ)
    (x : Tensor) : Tensor :=
  let u := convTranspose2d p.upscaling in_ch upscale_factor x
  dcanConv.fval p.conv out_ch (upscale_factor * H) (upscale_factor * W) u

/-- Parameters of `DCAN`. -/
structure DCANP where
  conv1 : DcanConvP
  conv2 : DcanConvP
  conv3 : DcanConvP
  conv4 : DcanConvP
  conv5 : DcanConvP
  conv6 : DcanConvP
  deconv3s : DcanDeConvP
  deconv3c : DcanDeConvP
  deconv2s : DcanDeConvP
  deconv2c : DcanDeConvP
  deconv1s : DcanDeConvP
  deconv1c : DcanDeConvP

/-- The two pre-sigmoid sums of `DCAN.forward`, following the source line by
line: `outs = sigmoid(u1s + u2s + u3s)` and `outc = sigmoid(u1c + u2c + u3c)`. -/
def DCAN.pres (p : DCANP) (n_channels n_classes H W : ℕ) (x : Tensor) :
    Tensor × Tensor :=
  let c1 := dcanConv.fval p.conv1 n_channels H W x
  let c2 := dcanConv.fval p.conv2 64 (H / 2) (W / 2) (maxPool2d c1)
  let c3 := dcanConv.fval p.conv3 128 (H / 4) (W / 4) (maxPool2d c2)
  let c4 := dcanConv.fval p.conv4 256 (H / 8) (W / 8) (maxPool2d c3)
  let u3s := dcanDeConv.fval p.deconv3s 512 n_classes 8 (H / 8) (W / 8) c4
  let u3c := dcanDeConv.fval p.deconv3c 512 n_classes 8 (H / 8) (W / 8) c4
  let c5 := dcanConv.fval p.conv5 512 (H / 16) (W / 16) (maxPool2d c4)
  let u2s := dcanDeConv.fval p.deconv2s 512 n_classes 16 (H / 16) (W / 16) c5
  let u2c := dcanDeConv.fval p.deconv2c 512 n_classes 16 (H / 16) (W / 16) c5
  let c6 := dcanConv.fval p.conv6 512 (H / 32) (W / 32) (maxPool2d c5)
  let u1s := dcanDeConv.fval p.deconv1s 1024 n_classes 32 (H / 32) (W / 32) c6
  let u1c := dcanDeConv.fval p.deconv1c 1024 n_classes 32 (H / 32) (W / 32) c6
  (addT (addT u1s u2s) u3s, addT (addT u1c u2c) u3c)

/-- Value semantics of `DCAN.forward`. -/
def DCAN.fval (p : DCANP) (n_channels n_classes H W : ℕ) (x : Tensor) :
    List Tensor :=
  [sigmoidT (DCAN.pres p n_channels n_classes H W x).1,
   sigmoidT (DCAN.pres p n_channels n_classes H W x).2]

/-- The stage activation `c4` of DCAN, recomputed directly from the input
(the spec side of the head-summation refinement claim). -/
def DCAN.c4val (p : DCANP) (n_channels H W : ℕ) (x : Tensor) : Tensor :=
  dcanConv.fval p.conv4 256 (H / 8) (W / 8) (maxPool2d
    (dcanConv.fval p.conv3 128 (H / 4) (W / 4) (maxPool2d
      (dcanConv.fval p.conv2 64 (H / 2) (W / 2) (maxPool2d
        (dcanConv.fval p.conv1 n_channels H W x))))))

/-- The stage activation `c5` of DCAN, recomputed directly from the input. -/
def DCAN.c5val (p : DCANP) (n_channels H W : ℕ) (x : Tensor) : Tensor :=
  dcanConv.fval p.conv5 512 (H / 16) (W / 16) (maxPool2d (DCAN.c4val p n_channels H W x))

/-- The stage activation `c6` of DCAN, recomputed directly from the input. -/
def DCAN.c6val (p : DCANP) (n_channels H W : ℕ) (x : Tensor) : Tensor :=
  dcanConv.fval p.conv6 512 (H / 32) (W / 32) (maxPool2d (DCAN.c5val p n_channels H W x))

/-- Spec-side sum for the segmentation branch: the three segmentation
deconvolution heads, each evaluated independently on its stage activation
(c6, c5, c4), summed elementwise in the order of the source expression
`u1s + u2s + u3s`. -/
def DCAN.manualSegSum (p : DCANP) (n_channels n_classes H W : ℕ) (x : Tensor) :
    Tensor :=
  addT (addT
      (dcanDeConv.fval p.deconv1s 1024 n_classes 32 (H / 32) (W / 32)
        (DCAN.c6val p n_channels H W x))
      (dcanDeConv.fval p.deconv2s 512 n_classes 16 (H / 16) (W / 16)
        (DCAN.c5val p n_channels H W x)))
    (dcanDeConv.fval p.deconv3s 512 n_classes 8 (H / 8) (W / 8)
      (DCAN.c4val p n_channels H W x))

/-- Spec-side sum for the contour branch, analogous to the segmentation
branch. -/
def DCAN.manualContourSum (p : DCANP) (n_channels n_classes H W : ℕ)
    (x : Tensor) : Tensor :=
  addT (addT
      (dcanDeConv.fval p.deconv1c 1024 n_classes 32 (H / 32) (W / 32)
        (DCAN.c6val p n_channels H W x))
      (dcanDeConv.fval p.deconv2c 512 n_classes 16 (H / 16) (W / 16)
        (DCAN.c5val p n_channels H W x)))
    (dcanDeConv.fval p.deconv3c 512 n_classes 8 (H / 8) (W / 8)
      (DCAN.c4val p n_channels H W x))

/-- Parameters of one VGG16-BN encoder layer (conv plus its batch norm). -/
structure VggLayerP where
  conv : ConvP
  norm : BNP

/-- One VGG16-BN encoder layer as used in `UNetVgg16.forward`:
`relu(bn(conv(x)))`. -/
def vggLayer (p : VggLayerP) (in_ch H W : ℕ) (x : Tensor) : Tensor :=
  reluT (batchNorm2d p.norm (conv2d p.conv in_ch 3 1 1 H W x))

/-- Parameters of a `DeConvBlk`. -/
structure DeConvBlkP where
  upscaling : ConvP
  conv1 : ConvP
  norm1 : BNP
  conv2 : ConvP
  norm2 : BNP

/-- Value semantics of `DeConvBlk.forward(x1, x2)` where `x1` has spatial
extent `H1 x W1` (so `2*H1 x 2*W1` after upscaling) and `x2` has `H2 x W2`.
As in the source, the pad amounts computed from the height difference are
applied to the width axis and conversely (`F.pad` pads the last dimension
first); both halves of an even difference add up to the difference. -/
def DeConvBlk.fval (p : DeConvBlkP) (in_ch out_ch H1 W1 H2 W2 : ℕ)
    (x1 x2 : Tensor) : Tensor :=
  let u := convTranspose2d p.upscaling in_ch 2 x1
  let dX : ℤ := ((2 * H1 : ℕ) : ℤ) - ((H2 : ℕ) : ℤ)
  let dY : ℤ := ((2 * W1 : ℕ) : ℤ) - ((W2 : ℕ) : ℤ)
  let x2p := padT (dX.fdiv 2) (dY.fdiv 2) H2 W2 x2
  let c := catChannels (in_ch / 2) u x2p
  let y := dropout2d (batchNorm2d p.norm1
    (reluT (conv2d p.conv1 (in_ch / 2 + out_ch) 3 1 1 (2 * H1) (2 * W1) c)))
  dropout2d (batchNorm2d p.norm2
    (reluT (conv2d p.conv2 out_ch 3 1 1 (2 * H1) (2 * W1) y)))

/-- Parameters of `UNetVgg16`. -/
structure UNetVgg16P where
  l1a : VggLayerP
  l1b : VggLayerP
  l2a : VggLayerP
  l2b : VggLayerP
  l3a : VggLayerP
  l3b : VggLayerP
  l3c : VggLayerP
  l4a : VggLayerP
  l4b : VggLayerP
  l4c : VggLayerP
  l5a : VggLayerP
  l5b : VggLayerP
  l5c : VggLayerP
  deconv1 : DeConvBlkP
  deconv2 : DeConvBlkP
  deconv3 : DeConvBlkP
  deconv4 : DeConvBlkP
  outc : ConvP

/-- The pre-sigmoid output of `UNetVgg16.forward`. -/
def UNetVgg16.pre (p : UNetVgg16P) (H W : ℕ) (x : Tensor) : Tensor :=
  let t := vggLayer p.l1a 3 H W x
  let x1 := vggLayer p.l1b 64 H W t
  let t1 := maxPool2d x1
  let t2 := vggLayer p.l2a 64 (H / 2) (W / 2) t1
  let x2 := vggLayer p.l2b 128 (H / 2) (W / 2) t2
  let t3 := maxPool2d x2
  let t4 := vggLayer p.l3a 128 (H / 4) (W / 4) t3
  let t5 := vggLayer p.l3b 256 (H / 4) (W / 4) t4
  let x3 := vggLayer p.l3c 256 (H / 4) (W / 4) t5
  let t6 := maxPool2d x3
  let t7 := vggLayer p.l4a 256 (H / 8) (W / 8) t6
  let t8 := vggLayer p.l4b 512 (H / 8) (W / 8) t7
  let x4 := vggLayer p.l4c 512 (H / 8) (W / 8) t8
  let t9 := maxPool2d x4
  let t10 := vggLayer p.l5a 512 (H / 16) (W / 16) t9
  let t11 := vggLayer p.l5b 512 (H / 16) (W / 16) t10
  let x5 := vggLayer p.l5c 512 (H / 16) (W / 16) t11
  let d1 := DeConvBlk.fval p.deconv1 512 512 (H / 16) (W / 16) (H / 8) (W / 8) x5 x4
  let d2 := DeConvBlk.fval p.deconv2 512 256 (H / 8) (W / 8) (H / 4) (W / 4) d1 x3
  let d3 := DeConvBlk.fval p.deconv3 256 128 (H / 4) (W / 4) (H / 2) (W / 2) d2 x2
  let d4 := DeConvBlk.fval p.deconv4 128 64 (H / 2) (W / 2) H W d3 x1
  conv2d p.outc 64 1 0 1 H W d4

/-- Value semantics of `UNetVgg16.forward`. -/
def UNetVgg16.fval (p : UNetVgg16P) (H W : ℕ) (x : Tensor) : List Tensor :=
  [sigmoidT (UNetVgg16.pre p H W x)]

end

/-! ### Basic lemmas about the option bind -/

@[simp]
theorem obind_some {A B : Type} (a : A) (f : A → Option B) :
    obind (some a) f = f a := rfl

@[simp]
theorem obind_none {A B : Type} (f : A → Option B) :
    obind (none : Option A) f = none := rfl

theorem obind_eq_some {A B : Type} {o : Option A} {f : A → Option B} {b : B} :
    obind o f = some b ↔ ∃ a, o = some a ∧ f a = some b := by
  cases o <;> simp [obind]

/-! ### Shape-correctness lemmas -/

theorem conv2d_k3_ok (i o d n h w : ℕ) (hd : 1 ≤ d) (hh : 1 ≤ h) (hw : 1 ≤ w) :
    conv2dShape i o 3 d d ⟨n, i, h, w⟩ = some ⟨n, o, h, w⟩ := by
  unfold conv2dShape
  dsimp only
  rw [if_pos]
  · rw [show h + 2 * d - d * (3 - 1) = h from by omega,
        show w + 2 * d - d * (3 - 1) = w from by omega]
  · exact ⟨by omega, hd, rfl, by omega, by omega⟩

theorem conv2d_k1_ok (i o n h w : ℕ) (hh : 1 ≤ h) (hw : 1 ≤ w) :
    conv2dShape i o 1 0 1 ⟨n, i, h, w⟩ = some ⟨n, o, h, w⟩ := by
  unfold conv2dShape
  dsimp only
  rw [if_pos]
  · rw [show h + 2 * 0 - 1 * (1 - 1) = h from by omega,
        show w + 2 * 0 - 1 * (1 - 1) = w from by omega]
  · exact ⟨by omega, by omega, rfl, by omega, by omega⟩

theorem bn_ok (o n h w : ℕ) :
    batchNorm2dShape o ⟨n, o, h, w⟩ = some ⟨n, o, h, w⟩ := by
  unfold batchNorm2dShape
  dsimp only
  rw [if_pos rfl]

theorem dcb_ok (i o d n h w : ℕ) (hd : 1 ≤ d) (hh : 1 ≤ h) (hw : 1 ≤ w) :
    DilatedConvBlock.fshape i o 3 d ⟨n, i, h, w⟩ = some ⟨n, o, h, w⟩ := by
  unfold DilatedConvBlock.fshape
  rw [conv2d_k3_ok i o d n h w hd hh hw, obind_some, bn_ok]

theorem mp_ok (n c h w : ℕ) (hh : 2 ≤ h) (hw : 2 ≤ w) :
    maxPool2Shape ⟨n, c, h, w⟩ = some ⟨n, c, h / 2, w / 2⟩ := by
  unfold maxPool2Shape
  dsimp only
  rw [if_pos ⟨hh, hw⟩]

theorem cb_ok (i o d n h w : ℕ) (hd : 1 ≤ d) (hh : 2 ≤ h) (hw : 2 ≤ w) :
    ConvBlock.fshape i o d ⟨n, i, h, w⟩ =
      some (⟨n, o, h / 2, w / 2⟩, ⟨n, o, h, w⟩) := by
  unfold ConvBlock.fshape
  rw [dcb_ok i o 1 n h w le_rfl (by omega) (by omega), obind_some,
      dcb_ok o o d n h w hd (by omega) (by omega), obind_some,
      mp_ok n o h w hh hw, obind_some]

theorem ctk_ok (i o k n h w : ℕ) (hk : 1 ≤ k) (hh : 1 ≤ h) (hw : 1 ≤ w) :
    convTranspose2Shape i o k ⟨n, i, h, w⟩ = some ⟨n, o, k * h, k * w⟩ := by
  unfold convTranspose2Shape
  dsimp only
  rw [if_pos ⟨hk, rfl, hh, hw⟩]

theorem cat_ok (n c1 c2 h w : ℕ) :
    catShape ⟨n, c1, h, w⟩ ⟨n, c2, h, w⟩ = some ⟨n, c1 + c2, h, w⟩ := by
  unfold catShape
  dsimp only
  rw [if_pos ⟨rfl, rfl, rfl⟩]

theorem cub_ok (o d n h w : ℕ) (hd : 1 ≤ d) (hh : 1 ≤ h) (hw : 1 ≤ w) :
    ConvUpBlock.fshape (2 * o) o d ⟨n, 2 * o, h, w⟩ ⟨n, o, 2 * h, 2 * w⟩ =
      some ⟨n, o, 2 * h, 2 * w⟩ := by
  unfold ConvUpBlock.fshape
  rw [ctk_ok (2 * o) o 2 n h w (by omega) hh hw, obind_some,
      cat_ok n o o (2 * h) (2 * w), obind_some,
      show o + o = 2 * o from by ring,
      dcb_ok (2 * o) o 1 n (2 * h) (2 * w) le_rfl (by omega) (by omega), obind_some,
      dcb_ok o o d n (2 * h) (2 * w) hd (by omega) (by omega)]

theorem ub_ok (n a b : ℕ) (ha : 1 ≤ a) (hb : 1 ≤ b) :
    (obind (ConvUpBlock.fshape 256 128 1 ⟨n, 256, a, b⟩ ⟨n, 128, 2 * a, 2 * b⟩) fun x =>
     obind (ConvUpBlock.fshape 128 64 1 x ⟨n, 64, 4 * a, 4 * b⟩) fun x =>
     obind (ConvUpBlock.fshape 64 32 1 x ⟨n, 32, 8 * a, 8 * b⟩) fun x =>
     obind (ConvUpBlock.fshape 32 16 1 x ⟨n, 16, 16 * a, 16 * b⟩) fun x =>
     conv2dShape 16 1 1 0 1 x)
    = some ⟨n, 1, 16 * a, 16 * b⟩ := by
  rw [show (256 : ℕ) = 2 * 128 from by norm_num,
      cub_ok 128 1 n a b le_rfl ha hb]
  simp only [obind_some]
  rw [show (128 : ℕ) = 2 * 64 from by norm_num,
      show 4 * a = 2 * (2 * a) from by ring, show 4 * b = 2 * (2 * b) from by ring,
      cub_ok 64 1 n (2 * a) (2 * b) le_rfl (by omega) (by omega)]
  simp only [obind_some]
  rw [show (64 : ℕ) = 2 * 32 from by norm_num,
      show 8 * a = 2 * (2 * (2 * a)) from by ring,
      show 8 * b = 2 * (2 * (2 * b)) from by ring,
      cub_ok 32 1 n (2 * (2 * a)) (2 * (2 * b)) le_rfl (by omega) (by omega)]
  simp only [obind_some]
  rw [show (32 : ℕ) = 2 * 16 from by norm_num,
      show 16 * a = 2 * (2 * (2 * (2 * a))) from by ring,
      show 16 * b = 2 * (2 * (2 * (2 * b))) from by ring,
      cub_ok 16 1 n (2 * (2 * (2 * a))) (2 * (2 * (2 * b))) le_rfl (by omega) (by omega)]
  simp only [obind_some]
  rw [conv2d_k1_ok 16 1 n (2 * (2 * (2 * (2 * a)))) (2 * (2 * (2 * (2 * b))))
        (by omega) (by omega)]

theorem dbot_ok (n a b : ℕ) (ha : 1 ≤ a) (hb : 1 ≤ b) :
    (obind (DilatedConvBlock.fshape 128 256 3 1 ⟨n, 128, a, b⟩) fun x =>
     obind (DilatedConvBlock.fshape 256 256 3 2 x) fun x =>
     obind (DilatedConvBlock.fshape 256 256 3 4 x) fun x =>
     DilatedConvBlock.fshape 256 256 3 8 x) = some ⟨n, 256, a, b⟩ := by
  rw [dcb_ok 128 256 1 n a b le_rfl ha hb]
  simp only [obind_some]
  rw [dcb_ok 256 256 2 n a b (by omega) ha hb]
  simp only [obind_some]
  rw [dcb_ok 256 256 4 n a b (by omega) ha hb]
  simp only [obind_some]
  rw [dcb_ok 256 256 8 n a b (by omega) ha hb]

theorem unet_ok (n a b : ℕ) (ha : 2 ≤ a) (hb : 2 ≤ b) :
    UNet.fshape ⟨n, 3, 16 * a, 16 * b⟩ = some [⟨n, 1, 16 * a, 16 * b⟩] := by
  unfold UNet.fshape
  rw [cb_ok 3 16 1 n (16 * a) (16 * b) le_rfl (by omega) (by omega)]
  simp only [obind_some]
  rw [show 16 * a / 2 = 8 * a from by omega, show 16 * b / 2 = 8 * b from by omega,
      cb_ok 16 32 1 n (8 * a) (8 * b) le_rfl (by omega) (by omega)]
  simp only [obind_some]
  rw [show 8 * a / 2 = 4 * a from by omega, show 8 * b / 2 = 4 * b from by omega,
      cb_ok 32 64 1 n (4 * a) (4 * b) le_rfl (by omega) (by omega)]
  simp only [obind_some]
  rw [show 4 * a / 2 = 2 * a from by omega, show 4 * b / 2 = 2 * b from by omega,
      cb_ok 64 128 1 n (2 * a) (2 * b) le_rfl (by omega) (by omega)]
  simp only [obind_some]
  rw [show 2 * a / 2 = a from by omega, show 2 * b / 2 = b from by omega,
      cb_ok 128 256 1 n a b le_rfl ha hb]
  simp only [obind_some]
  rw [ub_ok n a b (by omega) (by omega)]
  simp only [obind_some]

theorem dunet_ok (n a b : ℕ) (ha : 1 ≤ a) (hb : 1 ≤ b) :
    DUNet.fshape ⟨n, 3, 16 * a, 16 * b⟩ = some [⟨n, 1, 16 * a, 16 * b⟩] := by
  unfold DUNet.fshape
  rw [cb_ok 3 16 2 n (16 * a) (16 * b) (by omega) (by omega) (by omega)]
  simp only [obind_some]
  rw [show 16 * a / 2 = 8 * a from by omega, show 16 * b / 2 = 8 * b from by omega,
      cb_ok 16 32 2 n (8 * a) (8 * b) (by omega) (by omega) (by omega)]
  simp only [obind_some]
  rw [show 8 * a / 2 = 4 * a from by omega, show 8 * b / 2 = 4 * b from by omega,
      cb_ok 32 64 2 n (4 * a) (4 * b) (by omega) (by omega) (by omega)]
  simp only [obind_some]
  rw [show 4 * a / 2 = 2 * a from by omega, show 4 * b / 2 = 2 * b from by omega,
      cb_ok 64 128 2 n (2 * a) (2 * b) (by omega) (by omega) (by omega)]
  simp only [obind_some]
  rw [show 2 * a / 2 = a from by omega, show 2 * b / 2 = b from by omega,
      dbot_ok n a b ha hb]
  simp only [obind_some]
  rw [ub_ok n a b ha hb]
  simp only [obind_some]

theorem caunet_ok (n a b : ℕ) (ha : 2 ≤ a) (hb : 2 ≤ b) :
    CAUNet.fshape ⟨n, 3, 16 * a, 16 * b⟩ =
      some [⟨n, 1, 16 * a, 16 * b⟩, ⟨n, 1, 16 * a, 16 * b⟩] := by
  unfold CAUNet.fshape
  rw [cb_ok 3 16 1 n (16 * a) (16 * b) le_rfl (by omega) (by omega)]
  simp only [obind_some]
  rw [show 16 * a / 2 = 8 * a from by omega, show 16 * b / 2 = 8 * b from by omega,
      cb_ok 16 32 1 n (8 * a) (8 * b) le_rfl (by omega) (by omega)]
  simp only [obind_some]
  rw [show 8 * a / 2 = 4 * a from by omega, show 8 * b / 2 = 4 * b from by omega,
      cb_ok 32 64 1 n (4 * a) (4 * b) le_rfl (by omega) (by omega)]
  simp only [obind_some]
  rw [show 4 * a / 2 = 2 * a from by omega, show 4 * b / 2 = 2 * b from by omega,
      cb_ok 64 128 1 n (2 * a) (2 * b) le_rfl (by omega) (by omega)]
  simp only [obind_some]
  rw [show 2 * a / 2 = a from by omega, show 2 * b / 2 = b from by omega,
      cb_ok 128 256 1 n a b le_rfl ha hb]
  simp only [obind_some]
  rw [ub_ok n a b (by omega) (by omega)]
  simp only [obind_some]

theorem camunet_ok (n a b : ℕ) (ha : 2 ≤ a) (hb : 2 ≤ b) :
    CAMUNet.fshape ⟨n, 3, 16 * a, 16 * b⟩ =
      some [⟨n, 1, 16 * a, 16 * b⟩, ⟨n, 1, 16 * a, 16 * b⟩, ⟨n, 1, 16 * a, 16 * b⟩] := by
  unfold CAMUNet.fshape
  rw [cb_ok 3 16 1 n (16 * a) (16 * b) le_rfl (by omega) (by omega)]
  simp only [obind_some]
  rw [show 16 * a / 2 = 8 * a from by omega, show 16 * b / 2 = 8 * b from by omega,
      cb_ok 16 32 1 n (8 * a) (8 * b) le_rfl (by omega) (by omega)]
  simp only [obind_some]
  rw [show 8 * a / 2 = 4 * a from by omega, show 8 * b / 2 = 4 * b from by omega,
      cb_ok 32 64 1 n (4 * a) (4 * b) le_rfl (by omega) (by omega)]
  simp only [obind_some]
  rw [show 4 * a / 2 = 2 * a from by omega, show 4 * b / 2 = 2 * b from by omega,
      cb_ok 64 128 1 n (2 * a) (2 * b) le_rfl (by omega) (by omega)]
  simp only [obind_some]
  rw [show 2 * a / 2 = a from by omega, show 2 * b / 2 = b from by omega,
      cb_ok 128 256 1 n a b le_rfl ha hb]
  simp only [obind_some]
  rw [ub_ok n a b (by omega) (by omega)]
  simp only [obind_some]

theorem cadunet_ok (n a b : ℕ) (ha : 1 ≤ a) (hb : 1 ≤ b) :
    CADUNet.fshape ⟨n, 3, 16 * a, 16 * b⟩ =
      some [⟨n, 1, 16 * a, 16 * b⟩, ⟨n, 1, 16 * a, 16 * b⟩] := by
  unfold CADUNet.fshape
  rw [cb_ok 3 16 2 n (16 * a) (16 * b) (by omega) (by omega) (by omega)]
  simp only [obind_some]
  rw [show 16 * a / 2 = 8 * a from by omega, show 16 * b / 2 = 8 * b from by omega,
      cb_ok 16 32 2 n (8 * a) (8 * b) (by omega) (by omega) (by omega)]
  simp only [obind_some]
  rw [show 8 * a / 2 = 4 * a from by omega, show 8 * b / 2 = 4 * b from by omega,
      cb_ok 32 64 2 n (4 * a) (4 * b) (by omega) (by omega) (by omega)]
  simp only [obind_some]
  rw [show 4 * a / 2 = 2 * a from by omega, show 4 * b / 2 = 2 * b from by omega,
      cb_ok 64 128 2 n (2 * a) (2 * b) (by omega) (by omega) (by omega)]
  simp only [obind_some]
  rw [show 2 * a / 2 = a from by omega, show 2 * b / 2 = b from by omega,
      dbot_ok n a b ha hb]
  simp only [obind_some]
  rw [ub_ok n a b ha hb]
  simp only [obind_some]

theorem camdunet_ok (n a b : ℕ) (ha : 1 ≤ a) (hb : 1 ≤ b) :
    CAMDUNet.fshape ⟨n, 3, 16 * a, 16 * b⟩ =
      some [⟨n, 1, 16 * a, 16 * b⟩, ⟨n, 1, 16 * a, 16 * b⟩, ⟨n, 1, 16 * a, 16 * b⟩] := by
  unfold CAMDUNet.fshape
  rw [cb_ok 3 16 2 n (16 * a) (16 * b) (by omega) (by omega) (by omega)]
  simp only [obind_some]
  rw [show 16 * a / 2 = 8 * a from by omega, show 16 * b / 2 = 8 * b from by omega,
      cb_ok 16 32 2 n (8 * a) (8 * b) (by omega) (by omega) (by omega)]
  simp only [obind_some]
  rw [show 8 * a / 2 = 4 * a from by omega, show 8 * b / 2 = 4 * b from by omega,
      cb_ok 32 64 2 n (4 * a) (4 * b) (by omega) (by omega) (by omega)]
  simp only [obind_some]
  rw [show 4 * a / 2 = 2 * a from by omega, show 4 * b / 2 = 2 * b from by omega,
      cb_ok 64 128 2 n (2 * a) (2 * b) (by omega) (by omega) (by omega)]
  simp only [obind_some]
  rw [show 2 * a / 2 = a from by omega, show 2 * b / 2 = b from by omega,
      dbot_ok n a b ha hb]
  simp only [obind_some]
  rw [ub_ok n a b ha hb]
  simp only [obind_some]

theorem dcanConv_ok (i o n h w : ℕ) (hh : 1 ≤ h) (hw : 1 ≤ w) :
    dcanConv.fshape i o ⟨n, i, h, w⟩ = some ⟨n, o, h, w⟩ := by
  unfold dcanConv.fshape
  rw [conv2d_k3_ok i o 1 n h w le_rfl hh hw, obind_some, bn_ok]

theorem dcanDeConv_ok (i o k n h w : ℕ) (hk : 1 ≤ k) (hh : 1 ≤ h) (hw : 1 ≤ w) :
    dcanDeConv.fshape i o k ⟨n, i, h, w⟩ = some ⟨n, o, k * h, k * w⟩ := by
  unfold dcanDeConv.fshape
  rw [ctk_ok i o k n h w hk hh hw, obind_some,
      dcanConv_ok o o n (k * h) (k * w) (Nat.mul_pos hk hh) (Nat.mul_pos hk hw)]

theorem add_ok (s : TShape) : addShape s s = some s := by
  unfold addShape
  rw [if_pos rfl]

theorem dcan_ok (n a b : ℕ) (ha : 1 ≤ a) (hb : 1 ≤ b) :
    DCAN.fshape 3 1 ⟨n, 3, 32 * a, 32 * b⟩ =
      some [⟨n, 1, 32 * a, 32 * b⟩, ⟨n, 1, 32 * a, 32 * b⟩] := by
  unfold DCAN.fshape
  simp only [
    show 32 * a / 2 = 16 * a from by omega, show 32 * b / 2 = 16 * b from by omega,
    show 16 * a / 2 = 8 * a from by omega, show 16 * b / 2 = 8 * b from by omega,
    show 8 * a / 2 = 4 * a from by omega, show 8 * b / 2 = 4 * b from by omega,
    show 4 * a / 2 = 2 * a from by omega, show 4 * b / 2 = 2 * b from by omega,
    show 2 * a / 2 = a from by omega, show 2 * b / 2 = b from by omega,
    show 8 * (4 * a) = 32 * a from by ring, show 8 * (4 * b) = 32 * b from by ring,
    show 16 * (2 * a) = 32 * a from by ring, show 16 * (2 * b) = 32 * b from by ring,
    dcanConv_ok 3 64 n (32 * a) (32 * b) (by omega) (by omega),
    mp_ok n 64 (32 * a) (32 * b) (by omega) (by omega),
    dcanConv_ok 64 128 n (16 * a) (16 * b) (by omega) (by omega),
    mp_ok n 128 (16 * a) (16 * b) (by omega) (by omega),
    dcanConv_ok 128 256 n (8 * a) (8 * b) (by omega) (by omega),
    mp_ok n 256 (8 * a) (8 * b) (by omega) (by omega),
    dcanConv_ok 256 512 n (4 * a) (4 * b) (by omega) (by omega),
    dcanDeConv_ok 512 1 8 n (4 * a) (4 * b) (by omega) (by omega) (by omega),
    mp_ok n 512 (4 * a) (4 * b) (by omega) (by omega),
    dcanConv_ok 512 512 n (2 * a) (2 * b) (by omega) (by omega),
    dcanDeConv_ok 512 1 16 n (2 * a) (2 * b) (by omega) (by omega) (by omega),
    mp_ok n 512 (2 * a) (2 * b) (by omega) (by omega),
    dcanConv_ok 512 1024 n a b ha hb,
    dcanDeConv_ok 1024 1 32 n a b (by omega) ha hb,
    add_ok, obind_some]

theorem pad0_ok (n c h w : ℕ) :
    padShape ((h : ℤ) - (h : ℤ)) ((w : ℤ) - (w : ℤ)) ⟨n, c, h, w⟩ =
      some ⟨n, c, h, w⟩ := by
  unfold padShape
  dsimp only
  rw [sub_self, sub_self,
      show (0 : ℤ).fdiv 2 = 0 from rfl, show (0 : ℤ).tdiv 2 = 0 from rfl,
      add_zero, add_zero, add_zero, add_zero, if_pos]
  · simp
  · exact ⟨Int.natCast_nonneg h, Int.natCast_nonneg w⟩

theorem deConvBlk_ok (i o n h w : ℕ) (hh : 1 ≤ h) (hw : 1 ≤ w) :
    DeConvBlk.fshape i o ⟨n, i, h, w⟩ ⟨n, o, 2 * h, 2 * w⟩ =
      some ⟨n, o, 2 * h, 2 * w⟩ := by
  unfold DeConvBlk.fshape
  rw [ctk_ok i (i / 2) 2 n h w (by omega) hh hw]
  simp only [obind_some]
  rw [pad0_ok n o (2 * h) (2 * w)]
  simp only [obind_some]
  rw [cat_ok n (i / 2) o (2 * h) (2 * w)]
  simp only [obind_some]
  rw [conv2d_k3_ok (i / 2 + o) o 1 n (2 * h) (2 * w) le_rfl (by omega) (by omega)]
  simp only [obind_some]
  rw [bn_ok o n (2 * h) (2 * w)]
  simp only [obind_some]
  rw [conv2d_k3_ok o o 1 n (2 * h) (2 * w) le_rfl (by omega) (by omega)]
  simp only [obind_some]
  rw [bn_ok o n (2 * h) (2 * w)]

theorem vggStage_ok (i o n h w : ℕ) (hh : 1 ≤ h) (hw : 1 ≤ w) :
    vggStageShape i o ⟨n, i, h, w⟩ = some ⟨n, o, h, w⟩ := by
  unfold vggStageShape
  rw [conv2d_k3_ok i o 1 n h w le_rfl hh hw, obind_some, bn_ok]

theorem unetvgg16_ok (n a b : ℕ) (ha : 1 ≤ a) (hb : 1 ≤ b) :
    UNetVgg16.fshape 1 ⟨n, 3, 32 * a, 32 * b⟩ = some [⟨n, 1, 32 * a, 32 * b⟩] := by
  unfold UNetVgg16.fshape
  rw [vggStage_ok 3 64 n (32 * a) (32 * b) (by omega) (by omega)]
  simp only [obind_some]
  rw [vggStage_ok 64 64 n (32 * a) (32 * b) (by omega) (by omega)]
  simp only [obind_some]
  rw [mp_ok n 64 (32 * a) (32 * b) (by omega) (by omega)]
  simp only [obind_some]
  rw [show 32 * a / 2 = 16 * a from by omega, show 32 * b / 2 = 16 * b from by omega,
      vggStage_ok 64 128 n (16 * a) (16 * b) (by omega) (by omega)]
  simp only [obind_some]
  rw [vggStage_ok 128 128 n (16 * a) (16 * b) (by omega) (by omega)]
  simp only [obind_some]
  rw [mp_ok n 128 (16 * a) (16 * b) (by omega) (by omega)]
  simp only [obind_some]
  rw [show 16 * a / 2 = 8 * a from by omega, show 16 * b / 2 = 8 * b from by omega,
      vggStage_ok 128 256 n (8 * a) (8 * b) (by omega) (by omega)]
  simp only [obind_some]
  rw [vggStage_ok 256 256 n (8 * a) (8 * b) (by omega) (by omega)]
  simp only [obind_some]
  rw [vggStage_ok 256 256 n (8 * a) (8 * b) (by omega) (by omega)]
  simp only [obind_some]
  rw [mp_ok n 256 (8 * a) (8 * b) (by omega) (by omega)]
  simp only [obind_some]
  rw [show 8 * a / 2 = 4 * a from by omega, show 8 * b / 2 = 4 * b from by omega,
      vggStage_ok 256 512 n (4 * a) (4 * b) (by omega) (by omega)]
  simp only [obind_some]
  rw [vggStage_ok 512 512 n (4 * a) (4 * b) (by omega) (by omega)]
  simp only [obind_some]
  rw [vggStage_ok 512 512 n (4 * a) (4 * b) (by omega) (by omega)]
  simp only [obind_some]
  rw [mp_ok n 512 (4 * a) (4 * b) (by omega) (by omega)]
  simp only [obind_some]
  rw [show 4 * a / 2 = 2 * a from by omega, show 4 * b / 2 = 2 * b from by omega,
      vggStage_ok 512 512 n (2 * a) (2 * b) (by omega) (by omega)]
  simp only [obind_some]
  rw [vggStage_ok 512 512 n (2 * a) (2 * b) (by omega) (by omega)]
  simp only [obind_some]
  rw [vggStage_ok 512 512 n (2 * a) (2 * b) (by omega) (by omega)]
  simp only [obind_some]
  rw [show 4 * a = 2 * (2 * a) from by ring, show 4 * b = 2 * (2 * b) from by ring,
      deConvBlk_ok 512 512 n (2 * a) (2 * b) (by omega) (by omega)]
  simp only [obind_some]
  rw [show 8 * a = 2 * (2 * (2 * a)) from by ring,
      show 8 * b = 2 * (2 * (2 * b)) from by ring,
      deConvBlk_ok 512 256 n (2 * (2 * a)) (2 * (2 * b)) (by omega) (by omega)]
  simp only [obind_some]
  rw [show 16 * a = 2 * (2 * (2 * (2 * a))) from by ring,
      show 16 * b = 2 * (2 * (2 * (2 * b))) from by ring,
      deConvBlk_ok 256 128 n (2 * (2 * (2 * a))) (2 * (2 * (2 * b))) (by omega) (by omega)]
  simp only [obind_some]
  rw [show 32 * a = 2 * (2 * (2 * (2 * (2 * a)))) from by ring,
      show 32 * b = 2 * (2 * (2 * (2 * (2 * b)))) from by ring,
      deConvBlk_ok 128 64 n (2 * (2 * (2 * (2 * a)))) (2 * (2 * (2 * (2 * b))))
        (by omega) (by omega)]
  simp only [obind_some]
  rw [conv2d_k1_ok 64 1 n (2 * (2 * (2 * (2 * (2 * a))))) (2 * (2 * (2 * (2 * (2 * b)))))
        (by omega) (by omega)]
  simp only [obind_some]

/-! ### Output-arity lemmas: whenever a forward pass succeeds, the number of
returned tensors and the equality of their shapes is forced. -/

theorem unet_arity (s : TShape) (outs : List TShape)
    (h : UNet.fshape s = some outs) : ∃ t, outs = [t] := by
  unfold UNet.fshape at h
  rw [obind_eq_some] at h
  obtain ⟨xc1, h1, h⟩ := h
  rw [obind_eq_some] at h
  obtain ⟨xc2, h2, h⟩ := h
  rw [obind_eq_some] at h
  obtain ⟨xc3, h3, h⟩ := h
  rw [obind_eq_some] at h
  obtain ⟨xc4, h4, h⟩ := h
  rw [obind_eq_some] at h
  obtain ⟨xcu, h5, h⟩ := h
  rw [obind_eq_some] at h
  obtain ⟨x, hx, h⟩ := h
  exact ⟨x, (Option.some.inj h).symm⟩

theorem dunet_arity (s : TShape) (outs : List TShape)
    (h : DUNet.fshape s = some outs) : ∃ t, outs = [t] := by
  unfold DUNet.fshape at h
  rw [obind_eq_some] at h
  obtain ⟨xc1, h1, h⟩ := h
  rw [obind_eq_some] at h
  obtain ⟨xc2, h2, h⟩ := h
  rw [obind_eq_some] at h
  obtain ⟨xc3, h3, h⟩ := h
  rw [obind_eq_some] at h
  obtain ⟨xc4, h4, h⟩ := h
  rw [obind_eq_some] at h
  obtain ⟨xcu, h5, h⟩ := h
  rw [obind_eq_some] at h
  obtain ⟨x, hx, h⟩ := h
  exact ⟨x, (Option.some.inj h).symm⟩

theorem caunet_arity (s : TShape) (outs : List TShape)
    (h : CAUNet.fshape s = some outs) : ∃ t, outs = [t, t] := by
  unfold CAUNet.fshape at h
  rw [obind_eq_some] at h
  obtain ⟨xc1, h1, h⟩ := h
  rw [obind_eq_some] at h
  obtain ⟨xc2, h2, h⟩ := h
  rw [obind_eq_some] at h
  obtain ⟨xc3, h3, h⟩ := h
  rw [obind_eq_some] at h
  obtain ⟨xc4, h4, h⟩ := h
  rw [obind_eq_some] at h
  obtain ⟨xcu, h5, h⟩ := h
  rw [obind_eq_some] at h
  obtain ⟨xs, hs, h⟩ := h
  rw [obind_eq_some] at h
  obtain ⟨xc, hc, h⟩ := h
  rw [hs] at hc
  obtain rfl : xs = xc := Option.some.inj hc
  exact ⟨xs, (Option.some.inj h).symm⟩

theorem cadunet_arity (s : TShape) (outs : List TShape)
    (h : CADUNet.fshape s = some outs) : ∃ t, outs = [t, t] := by
  unfold CADUNet.fshape at h
  rw [obind_eq_some] at h
  obtain ⟨xc1, h1, h⟩ := h
  rw [obind_eq_some] at h
  obtain ⟨xc2, h2, h⟩ := h
  rw [obind_eq_some] at h
  obtain ⟨xc3, h3, h⟩ := h
  rw [obind_eq_some] at h
  obtain ⟨xc4, h4, h⟩ := h
  rw [obind_eq_some] at h
  obtain ⟨xcu, h5, h⟩ := h
  rw [obind_eq_some] at h
  obtain ⟨xs, hs, h⟩ := h
  rw [obind_eq_some] at h
  obtain ⟨xc, hc, h⟩ := h
  rw [hs] at hc
  obtain rfl : xs = xc := Option.some.inj hc
  exact ⟨xs, (Option.some.inj h).symm⟩

theorem camunet_arity (s : TShape) (outs : List TShape)
    (h : CAMUNet.fshape s = some outs) : ∃ t, outs = [t, t, t] := by
  unfold CAMUNet.fshape at h
  rw [obind_eq_some] at h
  obtain ⟨xc1, h1, h⟩ := h
  rw [obind_eq_some] at h
  obtain ⟨xc2, h2, h⟩ := h
  rw [obind_eq_some] at h
  obtain ⟨xc3, h3, h⟩ := h
  rw [obind_eq_some] at h
  obtain ⟨xc4, h4, h⟩ := h
  rw [obind_eq_some] at h
  obtain ⟨xcu, h5, h⟩ := h
  rw [obind_eq_some] at h
  obtain ⟨xs, hs, h⟩ := h
  rw [obind_eq_some] at h
  obtain ⟨xc, hc, h⟩ := h
  rw [obind_eq_some] at h
  obtain ⟨xm, hm, h⟩ := h
  rw [hs] at hc hm
  obtain rfl : xs = xc := Option.some.inj hc
  obtain rfl : xs = xm := Option.some.inj hm
  exact ⟨xs, (Option.some.inj h).symm⟩

theorem camdunet_arity (s : TShape) (outs : List TShape)
    (h : CAMDUNet.fshape s = some outs) : ∃ t, outs = [t, t, t] := by
  unfold CAMDUNet.fshape at h
  rw [obind_eq_some] at h
  obtain ⟨xc1, h1, h⟩ := h
  rw [obind_eq_some] at h
  obtain ⟨xc2, h2, h⟩ := h
  rw [obind_eq_some] at h
  obtain ⟨xc3, h3, h⟩ := h
  rw [obind_eq_some] at h
  obtain ⟨xc4, h4, h⟩ := h
  rw [obind_eq_some] at h
  obtain ⟨xcu, h5, h⟩ := h
  rw [obind_eq_some] at h
  obtain ⟨xs, hs, h⟩ := h
  rw [obind_eq_some] at h
  obtain ⟨xc, hc, h⟩ := h
  rw [obind_eq_some] at h
  obtain ⟨xm, hm, h⟩ := h
  rw [hs] at hc hm
  obtain rfl : xs = xc := Option.some.inj hc
  obtain rfl : xs = xm := Option.some.inj hm
  exact ⟨xs, (Option.some.inj h).symm⟩

/-! ### Sigmoid range -/

theorem sigmoid_nonneg (x : ℝ) : 0 ≤ sigmoid x := by
  unfold sigmoid
  positivity

theorem sigmoid_le_one (x : ℝ) : sigmoid x ≤ 1 := by
  unfold sigmoid
  rw [div_le_one (by positivity)]
  have h := Real.exp_pos (-x)
  linarith

/-! ### Claim theorems -/

/-- C1: the claim says that every recognized name token yields the variant
class bearing that name, in particular that `build_model('cadunet')`
instantiates `CADUNet`.  The code instead constructs `CAMDUNet()` in the
`cadunet` branch (a class distinct from `CADUNet`), so the factory can never
produce a `CADUNet`; this theorem evaluates the embedded factory at the
failing input. -/
theorem C1_build_model_cadunet_is_camdunet :
    build_model "cadunet" = ModelSpec.camdunet ∧
    ModelSpec.camdunet ≠ ModelSpec.cadunet := by
  constructor
  · decide
  · decide

/-- C2 (amended): with H and W positive multiples of the downsampling
factor — and at least 32 for the non-dilated UNet/CAUNet/CAMUNet, whose
bottom `ConvBlock` computes a fifth max-pooling — every output of every
variant has shape (N, 1, H, W).  (As stated the claim fails: divisibility by
16 alone is not enough for the non-dilated variants, see the
counterexample.) -/
theorem C2_forward_output_shapes (n h w : ℕ) :
    (16 ∣ h → 16 ∣ w → 32 ≤ h → 32 ≤ w →
      UNet.fshape ⟨n, 3, h, w⟩ = some [⟨n, 1, h, w⟩] ∧
      CAUNet.fshape ⟨n, 3, h, w⟩ = some [⟨n, 1, h, w⟩, ⟨n, 1, h, w⟩] ∧
      CAMUNet.fshape ⟨n, 3, h, w⟩ = some [⟨n, 1, h, w⟩, ⟨n, 1, h, w⟩, ⟨n, 1, h, w⟩]) ∧
    (16 ∣ h → 16 ∣ w → 16 ≤ h → 16 ≤ w →
      DUNet.fshape ⟨n, 3, h, w⟩ = some [⟨n, 1, h, w⟩] ∧
      CADUNet.fshape ⟨n, 3, h, w⟩ = some [⟨n, 1, h, w⟩, ⟨n, 1, h, w⟩] ∧
      CAMDUNet.fshape ⟨n, 3, h, w⟩ = some [⟨n, 1, h, w⟩, ⟨n, 1, h, w⟩, ⟨n, 1, h, w⟩]) ∧
    (32 ∣ h → 32 ∣ w → 32 ≤ h → 32 ≤ w →
      DCAN.fshape 3 1 ⟨n, 3, h, w⟩ = some [⟨n, 1, h, w⟩, ⟨n, 1, h, w⟩] ∧
      UNetVgg16.fshape 1 ⟨n, 3, h, w⟩ = some [⟨n, 1, h, w⟩]) := by
  refine ⟨fun h16 w16 h32 w32 => ?_, fun h16 w16 hh hw => ?_,
          fun h32 w32 hh hw => ?_⟩
  · obtain ⟨a, rfl⟩ := h16
    obtain ⟨b, rfl⟩ := w16
    exact ⟨unet_ok n a b (by omega) (by omega),
           caunet_ok n a b (by omega) (by omega),
           camunet_ok n a b (by omega) (by omega)⟩
  · obtain ⟨a, rfl⟩ := h16
    obtain ⟨b, rfl⟩ := w16
    exact ⟨dunet_ok n a b (by omega) (by omega),
           cadunet_ok n a b (by omega) (by omega),
           camdunet_ok n a b (by omega) (by omega)⟩
  · obtain ⟨a, rfl⟩ := h32
    obtain ⟨b, rfl⟩ := w32
    exact ⟨dcan_ok n a b (by omega) (by omega),
           unetvgg16_ok n a b (by omega) (by omega)⟩

/-- C2 counterexample: 16 divides 16, yet `UNet.forward` on a
(1, 3, 16, 16) input fails (the bottom `ConvBlock` max-pools a 1x1
activation), so it returns no tensors at all, let alone of shape
(1, 1, 16, 16). -/
theorem C2_counterexample :
    (16 ∣ (16 : ℕ)) ∧ UNet.fshape ⟨1, 3, 16, 16⟩ = none := by decide

theorem C2_witness :
    UNet.fshape ⟨1, 3, 32, 32⟩ = some [⟨1, 1, 32, 32⟩] ∧
    CAUNet.fshape ⟨1, 3, 32, 32⟩ = some [⟨1, 1, 32, 32⟩, ⟨1, 1, 32, 32⟩] ∧
    CAMUNet.fshape ⟨1, 3, 32, 32⟩ =
      some [⟨1, 1, 32, 32⟩, ⟨1, 1, 32, 32⟩, ⟨1, 1, 32, 32⟩] ∧
    DUNet.fshape ⟨1, 3, 32, 32⟩ = some [⟨1, 1, 32, 32⟩] ∧
    CADUNet.fshape ⟨1, 3, 32, 32⟩ = some [⟨1, 1, 32, 32⟩, ⟨1, 1, 32, 32⟩] ∧
    CAMDUNet.fshape ⟨1, 3, 32, 32⟩ =
      some [⟨1, 1, 32, 32⟩, ⟨1, 1, 32, 32⟩, ⟨1, 1, 32, 32⟩] ∧
    DCAN.fshape 3 1 ⟨1, 3, 32, 32⟩ = some [⟨1, 1, 32, 32⟩, ⟨1, 1, 32, 32⟩] ∧
    UNetVgg16.fshape 1 ⟨1, 3, 32, 32⟩ = some [⟨1, 1, 32, 32⟩] := by
  obtain ⟨g1, g2, g3⟩ := C2_forward_output_shapes 1 32 32
  obtain ⟨e1, e2, e3⟩ := g1 (by decide) (by decide) (by decide) (by decide)
  obtain ⟨e4, e5, e6⟩ := g2 (by decide) (by decide) (by decide) (by decide)
  obtain ⟨e7, e8⟩ := g3 (by decide) (by decide) (by decide) (by decide)
  exact ⟨e1, e2, e3, e4, e5, e6, e7, e8⟩

/-- C3: for every choice of parameters and every input, every element of
every output tensor of every variant lies in the closed interval [0, 1]:
each output head applies the logistic sigmoid as its final operation. -/
theorem C3_outputs_in_unit_interval :
    (∀ (p : UNetP) (H W : ℕ) (x : Tensor),
      (UNet.fval p H W x).Forall fun t => ∀ n c i j, 0 ≤ t n c i j ∧ t n c i j ≤ 1) ∧
    (∀ (p : DUNetP) (H W : ℕ) (x : Tensor),
      (DUNet.fval p H W x).Forall fun t => ∀ n c i j, 0 ≤ t n c i j ∧ t n c i j ≤ 1) ∧
    (∀ (p : CAUNetP) (H W : ℕ) (x : Tensor),
      (CAUNet.fval p H W x).Forall fun t => ∀ n c i j, 0 ≤ t n c i j ∧ t n c i j ≤ 1) ∧
    (∀ (p : CADUNetP) (H W : ℕ) (x : Tensor),
      (CADUNet.fval p H W x).Forall fun t => ∀ n c i j, 0 ≤ t n c i j ∧ t n c i j ≤ 1) ∧
    (∀ (p : CAMUNetP) (H W : ℕ) (x : Tensor),
      (CAMUNet.fval p H W x).Forall fun t => ∀ n c i j, 0 ≤ t n c i j ∧ t n c i j ≤ 1) ∧
    (∀ (p : CAMDUNetP) (H W : ℕ) (x : Tensor),
      (CAMDUNet.fval p H W x).Forall fun t => ∀ n c i j, 0 ≤ t n c i j ∧ t n c i j ≤ 1) ∧
    (∀ (p : DCANP) (n_channels n_classes H W : ℕ) (x : Tensor),
      (DCAN.fval p n_channels n_classes H W x).Forall fun t =>
        ∀ n c i j, 0 ≤ t n c i j ∧ t n c i j ≤ 1) ∧
    (∀ (p : UNetVgg16P) (H W : ℕ) (x : Tensor),
      (UNetVgg16.fval p H W x).Forall fun t => ∀ n c i j, 0 ≤ t n c i j ∧ t n c i j ≤ 1) := by
  refine ⟨fun p H W x => ?_, fun p H W x => ?_, fun p H W x => ?_, fun p H W x => ?_,
          fun p H W x => ?_, fun p H W x => ?_, fun p nch ncl H W x => ?_,
          fun p H W x => ?_⟩
  · simp only [UNet.fval, List.Forall, sigmoidT]
    exact fun n c i j => ⟨sigmoid_nonneg _, sigmoid_le_one _⟩
  · simp only [DUNet.fval, List.Forall, sigmoidT]
    exact fun n c i j => ⟨sigmoid_nonneg _, sigmoid_le_one _⟩
  · simp only [CAUNet.fval, List.Forall, sigmoidT]
    exact ⟨fun n c i j => ⟨sigmoid_nonneg _, sigmoid_le_one _⟩,
           fun n c i j => ⟨sigmoid_nonneg _, sigmoid_le_one _⟩⟩
  · simp only [CADUNet.fval, List.Forall, sigmoidT]
    exact ⟨fun n c i j => ⟨sigmoid_nonneg _, sigmoid_le_one _⟩,
           fun n c i j => ⟨sigmoid_nonneg _, sigmoid_le_one _⟩⟩
  · simp only [CAMUNet.fval, List.Forall, sigmoidT]
    exact ⟨fun n c i j => ⟨sigmoid_nonneg _, sigmoid_le_one _⟩,
           fun n c i j => ⟨sigmoid_nonneg _, sigmoid_le_one _⟩,
           fun n c i j => ⟨sigmoid_nonneg _, sigmoid_le_one _⟩⟩
  · simp only [CAMDUNet.fval, List.Forall, sigmoidT]
    exact ⟨fun n c i j => ⟨sigmoid_nonneg _, sigmoid_le_one _⟩,
           fun n c i j => ⟨sigmoid_nonneg _, sigmoid_le_one _⟩,
           fun n c i j => ⟨sigmoid_nonneg _, sigmoid_le_one _⟩⟩
  · simp only [DCAN.fval, List.Forall, sigmoidT]
    exact ⟨fun n c i j => ⟨sigmoid_nonneg _, sigmoid_le_one _⟩,
           fun n c i j => ⟨sigmoid_nonneg _, sigmoid_le_one _⟩⟩
  · simp only [UNetVgg16.fval, List.Forall, sigmoidT]
    exact fun n c i j => ⟨sigmoid_nonneg _, sigmoid_le_one _⟩

/-- C4: whenever a forward pass of a U-Net family variant succeeds, UNet and
DUNet return exactly one output tensor, CAUNet and CADUNet exactly two of
identical shape, and CAMUNet and CAMDUNet exactly three of identical
shape. -/
theorem C4_output_arity (s : TShape) (outs : List TShape) :
    (UNet.fshape s = some outs → ∃ t, outs = [t]) ∧
    (DUNet.fshape s = some outs → ∃ t, outs = [t]) ∧
    (CAUNet.fshape s = some outs → ∃ t, outs = [t, t]) ∧
    (CADUNet.fshape s = some outs → ∃ t, outs = [t, t]) ∧
    (CAMUNet.fshape s = some outs → ∃ t, outs = [t, t, t]) ∧
    (CAMDUNet.fshape s = some outs → ∃ t, outs = [t, t, t]) :=
  ⟨unet_arity s outs, dunet_arity s outs, caunet_arity s outs,
   cadunet_arity s outs, camunet_arity s outs, camdunet_arity s outs⟩

theorem C4_witness :
    (∃ t : TShape, [(⟨1, 1, 32, 32⟩ : TShape)] = [t]) ∧
    (∃ t : TShape, [(⟨1, 1, 16, 16⟩ : TShape)] = [t]) ∧
    (∃ t : TShape, [(⟨1, 1, 32, 32⟩ : TShape), ⟨1, 1, 32, 32⟩] = [t, t]) ∧
    (∃ t : TShape, [(⟨1, 1, 16, 16⟩ : TShape), ⟨1, 1, 16, 16⟩] = [t, t]) ∧
    (∃ t : TShape, [(⟨1, 1, 32, 32⟩ : TShape), ⟨1, 1, 32, 32⟩, ⟨1, 1, 32, 32⟩] = [t, t, t]) ∧
    (∃ t : TShape, [(⟨1, 1, 16, 16⟩ : TShape), ⟨1, 1, 16, 16⟩, ⟨1, 1, 16, 16⟩] = [t, t, t]) :=
  ⟨(C4_output_arity ⟨1, 3, 32, 32⟩ _).1 (by decide),
   (C4_output_arity ⟨1, 3, 16, 16⟩ _).2.1 (by decide),
   (C4_output_arity ⟨1, 3, 32, 32⟩ _).2.2.1 (by decide),
   (C4_output_arity ⟨1, 3, 16, 16⟩ _).2.2.2.1 (by decide),
   (C4_output_arity ⟨1, 3, 32, 32⟩ _).2.2.2.2.1 (by decide),
   (C4_output_arity ⟨1, 3, 16, 16⟩ _).2.2.2.2.2 (by decide)⟩

/-- C5: every name token outside the recognized set falls back to the same
architecture as `build_model('unet')` — the plain UNet — without an error. -/
theorem C5_unrecognized_name_falls_back (s : String)
    (h : s ∉ (["unet_vgg16", "dcan", "caunet", "camunet", "dunet", "cadunet",
               "camdunet"] : List String)) :
    build_model s = build_model "unet" := by
  have h1 : ¬ s = "unet_vgg16" := fun e => h (by rw [e]; decide)
  have h2 : ¬ s = "dcan" := fun e => h (by rw [e]; decide)
  have h3 : ¬ s = "caunet" := fun e => h (by rw [e]; decide)
  have h4 : ¬ s = "camunet" := fun e => h (by rw [e]; decide)
  have h5 : ¬ s = "dunet" := fun e => h (by rw [e]; decide)
  have h6 : ¬ s = "cadunet" := fun e => h (by rw [e]; decide)
  have h7 : ¬ s = "camdunet" := fun e => h (by rw [e]; decide)
  have hu : build_model "unet" = ModelSpec.unet := by decide
  rw [hu]
  unfold build_model
  rw [if_neg h1, if_neg h2, if_neg h3, if_neg h4, if_neg h5, if_neg h6, if_neg h7]

theorem C5_witness :
    ("unknown_name" ∉ (["unet_vgg16", "dcan", "caunet", "camunet", "dunet",
                        "cadunet", "camdunet"] : List String)) ∧
    build_model "unknown_name" = build_model "unet" :=
  ⟨by decide, C5_unrecognized_name_falls_back "unknown_name" (by decide)⟩

/-- C6 (amended): for the 3x3 kernel (the only kernel size the repository
instantiates; the default), any positive dilation and any positive spatial
extent, `DilatedConvBlock` maps an `in_size`-channel tensor to an
`out_size`-channel tensor of the same spatial size.  (As stated over every
kernel size the claim fails: padding equals the dilation regardless of the
kernel, so any kernel other than 3 changes the spatial size — see the
counterexample.) -/
theorem C6_dilatedConvBlock_shape (in_size out_size dilation n h w : ℕ)
    (hd : 1 ≤ dilation) (hh : 1 ≤ h) (hw : 1 ≤ w) :
    DilatedConvBlock.fshape in_size out_size 3 dilation ⟨n, in_size, h, w⟩ =
      some ⟨n, out_size, h, w⟩ :=
  dcb_ok in_size out_size dilation n h w hd hh hw

/-- C6 counterexample: a `DilatedConvBlock` with kernel size 5 and dilation
1 (hence padding 1) shrinks an 8x8 input to 6x6 instead of keeping the
spatial size. -/
theorem C6_counterexample :
    DilatedConvBlock.fshape 1 1 5 1 ⟨1, 1, 8, 8⟩ = some ⟨1, 1, 6, 6⟩ ∧
    DilatedConvBlock.fshape 1 1 5 1 ⟨1, 1, 8, 8⟩ ≠ some ⟨1, 1, 8, 8⟩ := by decide

theorem C6_witness :
    ((1 : ℕ) ≤ 2 ∧ (1 : ℕ) ≤ 5 ∧ (1 : ℕ) ≤ 9) ∧
    DilatedConvBlock.fshape 4 7 3 2 ⟨1, 4, 5, 9⟩ = some ⟨1, 7, 5, 9⟩ :=
  ⟨by decide, C6_dilatedConvBlock_shape 4 7 2 1 5 9 (by decide) (by decide) (by decide)⟩

/-- C7 (amended): when `in_size = 2 * out_size` (true of all four
instantiations in every variant), `ConvUpBlock` on an `in_size`-channel
tensor and an `out_size`-channel skip tensor of twice its (positive) spatial
size succeeds and returns `out_size` channels: the concatenation has
`2 * out_size` channels, which equals the `in_size` expected by the first
following `DilatedConvBlock`, and the two blocks reduce to `out_size`.
(For every in/out channel pair, as claimed, it fails: the first block reads
`in_size` channels but the concatenation supplies `2 * out_size` — see the
counterexample.) -/
theorem C7_convUpBlock_shape (out_size dilation n h w : ℕ)
    (hd : 1 ≤ dilation) (hh : 1 ≤ h) (hw : 1 ≤ w) :
    ConvUpBlock.fshape (2 * out_size) out_size dilation
      ⟨n, 2 * out_size, h, w⟩ ⟨n, out_size, 2 * h, 2 * w⟩ =
      some ⟨n, out_size, 2 * h, 2 * w⟩ :=
  cub_ok out_size dilation n h w hd hh hw

/-- C7 counterexample: `ConvUpBlock(3, 1)` on a 3-channel input with a
matching 1-channel skip tensor fails with a channel mismatch (the
concatenation yields 2 channels, but `block1` expects the declared
`in_channels = 3`), instead of succeeding as the claim states for every
in/out pair. -/
theorem C7_counterexample :
    ConvUpBlock.fshape 3 1 1 ⟨1, 3, 4, 4⟩ ⟨1, 1, 8, 8⟩ = none := by decide

theorem C7_witness :
    ((1 : ℕ) ≤ 1 ∧ (1 : ℕ) ≤ 4) ∧
    ConvUpBlock.fshape (2 * 128) 128 1 ⟨1, 2 * 128, 4, 4⟩ ⟨1, 128, 2 * 4, 2 * 4⟩ =
      some ⟨1, 128, 2 * 4, 2 * 4⟩ :=
  ⟨by decide, C7_convUpBlock_shape 128 1 1 4 4 (by decide) (by decide) (by decide)⟩

/-- C8: in `DCAN.forward` the tensor passed to the final segmentation
sigmoid equals the elementwise sum (in the source order `u1s + u2s + u3s`)
of the three segmentation deconvolution heads, each evaluated independently
on its stage activation (c6, c5, c4 recomputed from the input); likewise
for the contour branch, and the forward output is exactly the sigmoid of
these two manual sums. -/
theorem C8_dcan_head_sum_refinement (p : DCANP) (n_channels n_classes H W : ℕ)
    (x : Tensor) :
    DCAN.pres p n_channels n_classes H W x =
      (DCAN.manualSegSum p n_channels n_classes H W x,
       DCAN.manualContourSum p n_channels n_classes H W x) ∧
    DCAN.fval p n_channels n_classes H W x =
      [sigmoidT (DCAN.manualSegSum p n_channels n_classes H W x),
       sigmoidT (DCAN.manualContourSum p n_channels n_classes H W x)] :=
  ⟨rfl, rfl⟩

/-- C9: `count_parameters` sums the element counts of exactly the
parameters with `requires_grad` set; consequently a frozen VGG16 backbone
contributes zero to the count of a `UNetVgg16(.., fixed_vgg=True)` — the
count equals that of a model with an empty backbone parameter list. -/
theorem C9_count_parameters_spec :
    (∀ ps : List ParamT,
      count_parameters ps =
        ((ps.filter fun p => p.requires_grad).map fun p => p.numel).sum) ∧
    (∀ backbone decoder : List ℕ,
      count_parameters (UNetVgg16.parameters backbone decoder true) =
        count_parameters (UNetVgg16.parameters [] decoder true)) := by
  have hfilter : ∀ ps : List ParamT,
      count_parameters ps =
        ((ps.filter fun p => p.requires_grad).map fun p => p.numel).sum := by
    intro ps
    induction ps with
    | nil => rfl
    | cons p ps ih =>
      by_cases hp : p.requires_grad
      · simp [count_parameters, List.filter_cons, hp, ih]
      · simp [count_parameters, List.filter_cons, hp, ih]
  have happ : ∀ l1 l2 : List ParamT,
      count_parameters (l1 ++ l2) = count_parameters l1 + count_parameters l2 := by
    intro l1 l2
    induction l1 with
    | nil => simp [count_parameters]
    | cons p l ih => simp [count_parameters, ih, Nat.add_assoc]
  have hzero : ∀ l : List ParamT,
      count_parameters (set_requires_grad_false l) = 0 := by
    intro l
    induction l with
    | nil => rfl
    | cons p l ih =>
      simp only [set_requires_grad_false] at ih ⊢
      simp [count_parameters, ih]
  refine ⟨hfilter, fun backbone decoder => ?_⟩
  simp [UNetVgg16.parameters, happ, hzero]

/-- C10: the factory builds `UNetVgg16` only as `UNetVgg16(3, 1,
fixed_vgg=True)`; no name token produces an unfrozen-backbone model, and
freezing disables gradient updates on every backbone parameter. -/
theorem C10_factory_vgg_always_frozen :
    build_model "unet_vgg16" = ModelSpec.unetVgg16 3 1 true ∧
    (∀ name : String, (build_model name).isUnfrozenVgg = false) ∧
    (∀ backbone : List ℕ,
      ((set_requires_grad_false (vgg16_parameters backbone)).all
        fun p => !p.requires_grad) = true) := by
  refine ⟨by decide, fun name => ?_, fun backbone => ?_⟩
  · unfold build_model
    repeat' split
    all_goals rfl
  · induction backbone with
    | nil => rfl
    | cons m l ih =>
      simp only [set_requires_grad_false, vgg16_parameters] at ih ⊢
      simp [ih]
